import Mathlib

/-!
Verification development for the hefty SQS/SNS client wrappers: a shallow
embedding of the offload codec (size calculation, threshold classification,
reference-message codec, receipt-handle codec) and of the send / receive /
delete orchestration, together with theorems settling the specification's
claims against it.

Modelling conventions:
* Go strings are byte sequences; they are embedded as `List Char` where each
  character stands for one byte (hypotheses of the form `c.toNat < 256` are
  added where raw byte values matter, e.g. for the base64 codec).
* Go maps of message attributes are embedded as association lists.
* External collaborators (the native queue send / publish / delete, the blob
  store upload / download / delete, the generated UUID, and the MD5 digest
  primitive, all of which live in the AWS SDK or the Go standard library) are
  parameters of the orchestration functions; the orchestration returns, next
  to its result, the final value of the caller-supplied input struct (Go
  mutates it through a pointer) and the ordered trace of collaborator calls.
-/

deriving instance DecidableEq for Except

namespace HeftySpec

/-- A Go string: a sequence of bytes, one `Char` per byte. -/
abbrev GoStr := List Char

/-- Byte-sequence view of a Lean string literal (used for ASCII literals only). -/
def gs (s : String) : GoStr := s.data

/-- The numeric byte values of a Go string. -/
def strBytes (s : GoStr) : List Nat := s.map Char.toNat

/-- Embeds `aws.ToString`: dereference an optional string, `nil` becoming `""`. -/
def awsToString : Option GoStr → GoStr
  | none => []
  | some s => s

/-- Embeds the AWS SDK `MessageAttributeValue` (the fields the wrapper reads). -/
structure MessageAttributeValue where
  DataType : Option GoStr
  StringValue : Option GoStr
  BinaryValue : List Nat
  deriving DecidableEq

/-- Embeds `sqs.SendMessageInput` (the fields the wrapper reads or writes). -/
structure SendMessageInput where
  MessageBody : Option GoStr
  MessageAttributes : List (GoStr × MessageAttributeValue)
  QueueUrl : Option GoStr
  deriving DecidableEq

/-- Embeds `sqs.SendMessageOutput` (the fields the wrapper overwrites). -/
structure SendMessageOutput where
  MessageId : Option GoStr
  MD5OfMessageBody : Option GoStr
  MD5OfMessageAttributes : Option GoStr
  deriving DecidableEq

/-- Embeds `sqs.DeleteMessageInput`. -/
structure DeleteMessageInput where
  QueueUrl : Option GoStr
  ReceiptHandle : Option GoStr
  deriving DecidableEq

/-- Source constant `MaxSqsMessageLengthBytes = 262_144`. -/
def MaxSqsMessageLengthBytes : Nat := 262144

/-- Source constant `MaxHeftyMessageLengthBytes = 26_214_400`. -/
def MaxHeftyMessageLengthBytes : Nat := 26214400

/-- Source constant `heftyClientVersionMessageKey`. -/
def heftyClientVersionMessageKey : GoStr := gs "hefty-client-version"

/-- Source constant `receiptHandlePrefix`. -/
def receiptHandleMarker : GoStr := gs "hefty-message"

/-- Source constant `expectedReceiptHandleTokenCount = 4`. -/
def expectedReceiptHandleTokenCount : Nat := 4

/-- Size contribution of one message attribute, as computed inside the loop of
`msgSize` in `sqs.go`: name length plus dataType length plus value length,
where the value is the string value for a dataType whose leading token is
`String` or `Number` and the binary value for `Binary`; any other dataType is
an error (`encountered unexpected data type for message`). -/
def attrSize (k : GoStr) (v : MessageAttributeValue) : Except GoStr Nat :=
  let dataType := awsToString v.DataType
  if (gs "String").isPrefixOf dataType ∨ (gs "Number").isPrefixOf dataType then
    .ok (k.length + dataType.length + (awsToString v.StringValue).length)
  else if (gs "Binary").isPrefixOf dataType then
    .ok (k.length + dataType.length + v.BinaryValue.length)
  else
    .error (gs "encountered unexpected data type for message: " ++ dataType)

/-- Sum of `attrSize` over the attribute map, stopping at the first
unsupported dataType, as the `for` loop of `msgSize` does. -/
def msgSizeAttrs : List (GoStr × MessageAttributeValue) → Except GoStr Nat
  | [] => .ok 0
  | (k, v) :: rest =>
    match attrSize k v with
    | .error e => .error e
    | .ok n =>
      match msgSizeAttrs rest with
      | .error e => .error e
      | .ok m => .ok (n + m)

/-- Embeds `msgSize` of `sqs.go`: body length plus the attribute sizes. -/
def msgSize (params : SendMessageInput) : Except GoStr Nat :=
  match msgSizeAttrs params.MessageAttributes with
  | .error e => .error e
  | .ok a => .ok ((awsToString params.MessageBody).length + a)

example : msgSize ⟨some (gs "hi"),
    [(gs "k", ⟨some (gs "String"), some (gs "v"), []⟩)], none⟩ = .ok 10 := by decide

example : msgSize ⟨some (gs "hi"),
    [(gs "k", ⟨some (gs "Bogus"), some (gs "v"), []⟩)], none⟩ =
    .error (gs "encountered unexpected data type for message: Bogus") := by decide

/-! ### Base64 (the `encoding/base64` standard encoding used by the wrapper) -/

/-- The character for a 6-bit value, per the standard base64 alphabet. -/
def b64Char (n : Nat) : Char :=
  if n < 26 then Char.ofNat (65 + n)
  else if n < 52 then Char.ofNat (97 + (n - 26))
  else if n < 62 then Char.ofNat (48 + (n - 52))
  else if n = 62 then '+'
  else '/'

/-- The 6-bit value of a base64 alphabet character, `none` for any other. -/
def b64Val (c : Char) : Option Nat :=
  let n := c.toNat
  if 65 ≤ n ∧ n ≤ 90 then some (n - 65)
  else if 97 ≤ n ∧ n ≤ 122 then some ((n - 97) + 26)
  else if 48 ≤ n ∧ n ≤ 57 then some ((n - 48) + 52)
  else if n = 43 then some 62
  else if n = 47 then some 63
  else none

/-- Standard base64 encoding of a byte sequence, three bytes per four
characters with `=` padding. -/
def b64EncodeGroups : List Nat → List Char
  | [] => []
  | [b1] => [ b64Char (b1 / 4), b64Char (b1 % 4 * 16), '=', '=']
  | [b1, b2] => [ b64Char (b1 / 4), b64Char (b1 % 4 * 16 + b2 / 16), b64Char (b2 % 16 * 4), '=']
  | b1 :: b2 :: b3 :: rest =>
    b64Char (b1 / 4) :: b64Char (b1 % 4 * 16 + b2 / 16) ::
    b64Char (b2 % 16 * 4 + b3 / 64) :: b64Char (b3 % 64) :: b64EncodeGroups rest

/-- Standard base64 decoding: four characters per group, `=` padding allowed
only at the very end, `none` on any other character or on a length that is
not a multiple of four (this is when Go's `DecodeString` returns an error). -/
def b64DecodeGroups : List Char → Option (List Nat)
  | [] => some []
  | c1 :: c2 :: c3 :: c4 :: rest =>
    match b64Val c1, b64Val c2 with
    | some v1, some v2 =>
      if c3 = '=' then
        if c4 = '=' ∧ rest = [] then some [v1 * 4 + v2 / 16] else none
      else
        match b64Val c3 with
        | some v3 =>
          if c4 = '=' then
            if rest = [] then some [v1 * 4 + v2 / 16, v2 % 16 * 16 + v3 / 4] else none
          else
            match b64Val c4 with
            | some v4 =>
              (b64DecodeGroups rest).map
                (fun bs => (v1 * 4 + v2 / 16) :: (v2 % 16 * 16 + v3 / 4) :: (v3 % 4 * 64 + v4) :: bs)
            | none => none
        | none => none
    | _, _ => none
  | _ => none

/-- Embeds `base64.StdEncoding.EncodeToString` on a byte string. -/
def b64Encode (s : GoStr) : GoStr := b64EncodeGroups (strBytes s)

/-- Embeds `base64.StdEncoding.DecodeString`; `none` is Go's error return. -/
def b64Decode (s : GoStr) : Option GoStr :=
  (b64DecodeGroups s).map (fun bs => bs.map Char.ofNat)

theorem b64Val_b64Char : ∀ n < 64, b64Val (b64Char n) = some n := by decide

theorem b64Char_ne_eq : ∀ n < 64, b64Char n ≠ '=' := by decide

theorem b64DecodeGroups_encodeGroups :
    ∀ l : List Nat, (∀ b ∈ l, b < 256) → b64DecodeGroups (b64EncodeGroups l) = some l := by
  intro l
  induction l using b64EncodeGroups.induct with
  | case1 => intro; rfl
  | case2 b1 =>
    intro hb
    have h1 : b1 < 256 := hb b1 (by simp)
    rw [b64EncodeGroups, b64DecodeGroups,
      b64Val_b64Char (b1 / 4) (by omega), b64Val_b64Char (b1 % 4 * 16) (by omega)]
    simp only [Option.some.injEq, List.cons.injEq, and_true, reduceIte, and_self]
    omega
  | case3 b1 b2 =>
    intro hb
    have h1 : b1 < 256 := hb b1 (by simp)
    have h2 : b2 < 256 := hb b2 (by simp)
    rw [b64EncodeGroups, b64DecodeGroups,
      b64Val_b64Char (b1 / 4) (by omega), b64Val_b64Char (b1 % 4 * 16 + b2 / 16) (by omega)]
    dsimp only
    rw [if_neg (b64Char_ne_eq (b2 % 16 * 4) (by omega)),
      b64Val_b64Char (b2 % 16 * 4) (by omega)]
    dsimp only
    simp only [Option.some.injEq, List.cons.injEq, and_true, reduceIte]
    omega
  | case4 b1 b2 b3 rest ih =>
    intro hb
    have h1 : b1 < 256 := hb b1 (by simp)
    have h2 : b2 < 256 := hb b2 (by simp)
    have h3 : b3 < 256 := hb b3 (by simp)
    have hrest : ∀ b ∈ rest, b < 256 := fun b hmem => hb b (by simp [hmem])
    rw [b64EncodeGroups, b64DecodeGroups,
      b64Val_b64Char (b1 / 4) (by omega), b64Val_b64Char (b1 % 4 * 16 + b2 / 16) (by omega)]
    dsimp only
    rw [if_neg (b64Char_ne_eq (b2 % 16 * 4 + b3 / 64) (by omega)),
      b64Val_b64Char (b2 % 16 * 4 + b3 / 64) (by omega)]
    dsimp only
    rw [if_neg (b64Char_ne_eq (b3 % 64) (by omega)),
      b64Val_b64Char (b3 % 64) (by omega)]
    dsimp only
    rw [ih hrest]
    simp only [Option.map_some', Option.some.injEq, List.cons.injEq, and_true]
    refine ⟨by omega, by omega, by omega⟩

/-- Round trip of the opaque encoding: decoding an encoded byte string gives
the string back (every character of a Go string is a byte). -/
theorem b64Decode_b64Encode (s : GoStr) (h : ∀ c ∈ s, c.toNat < 256) :
    b64Decode (b64Encode s) = some s := by
  rw [b64Encode, b64Decode, b64DecodeGroups_encodeGroups]
  · rw [Option.map_some']
    congr 1
    rw [strBytes, List.map_map]
    exact List.map_congr_left (fun c _ => Char.ofNat_toNat c) |>.trans (List.map_id s)
  · intro b hb
    rw [strBytes] at hb
    obtain ⟨c, hc, rfl⟩ := List.mem_map.1 hb
    exact h c hc

/-! ### `strings.Split` on a single-byte separator -/

/-- Embeds Go's `strings.Split` for a one-character separator: the substrings
between consecutive separators, including empty ones; never the empty list. -/
def splitChar (sep : Char) : List Char → List (List Char)
  | [] => [[]]
  | c :: cs =>
    if c = sep then [] :: splitChar sep cs
    else
      match splitChar sep cs with
      | t :: ts => (c :: t) :: ts
      | [] => [[c]]

theorem splitChar_no_sep (sep : Char) :
    ∀ xs : List Char, sep ∉ xs → splitChar sep xs = [xs] := by
  intro xs
  induction xs with
  | nil => intro; rfl
  | cons c cs ih =>
    intro h
    simp only [List.mem_cons, not_or] at h
    rw [splitChar, if_neg (fun hc => h.1 hc.symm), ih h.2]

theorem splitChar_append (sep : Char) (xs rest : List Char) (h : sep ∉ xs) :
    splitChar sep (xs ++ sep :: rest) = xs :: splitChar sep rest := by
  induction xs with
  | nil => simp [splitChar]
  | cons c cs ih =>
    simp only [List.mem_cons, not_or] at h
    rw [List.cons_append, splitChar, if_neg (fun hc => h.1 hc.symm), ih h.2]

/-! ### Receipt handle codec -/

/-- The wire form built by `ReceiveHeftyMessage`:
`"hefty-message|<nativeHandle>|<s3Bucket>|<s3Key>"`, then base64. -/
def wrapReceiptHandle (nativeHandle s3Bucket s3Key : GoStr) : GoStr :=
  b64Encode
    ( receiptHandleMarker ++ '|' :: nativeHandle ++ '|' :: s3Bucket ++ '|' :: s3Key)

/-- Outcome of inspecting a receipt handle at delete time. -/
inductive UnwrapResult
  | native (handle : GoStr)
  | offloaded (nativeHandle s3Bucket s3Key : GoStr)
  | malformed (msg : GoStr)
  deriving DecidableEq

/-- The receipt-handle inspection performed by `DeleteHeftyMessage`
(`sqs.go` lines 210 to 229): base64-decode the handle — a decode failure is
an error — then fall back to the native handle when the `hefty-message`
marker is absent, otherwise split on `|` and require exactly four tokens. -/
def unwrapReceiptHandle (rh : GoStr) : UnwrapResult :=
  match b64Decode rh with
  | none => .malformed (gs "could not decode receipt handle.")
  | some decodedStr =>
    if ¬ receiptHandleMarker.isPrefixOf decodedStr then .native rh
    else
      let tokens := splitChar '|' decodedStr
      if tokens.length ≠ expectedReceiptHandleTokenCount then
        .malformed (gs "expected number of tokens (4) not available in receipt handle")
      else
        .offloaded (tokens.getD 1 []) (tokens.getD 2 []) (tokens.getD 3 [])

/-- Trace of collaborator calls made by the orchestration functions. -/
inductive Event
  | sendNative (params : SendMessageInput)
  | upload (bucket key : GoStr) (payload : List Nat)
  | download (bucket key : GoStr)
  | deleteS3 (bucket key : GoStr)
  | deleteNative (params : DeleteMessageInput)
  deriving DecidableEq

/-- Embeds `DeleteHeftyMessage`: unwrap the receipt handle; for a wrapped
(offloaded) handle delete the S3 object first and, only if that succeeded,
delete the SQS message using the original native handle; otherwise delegate
to the native delete with the caller's input unchanged.  Collaborator
outcomes are the parameters `s3Del` and `natDel`; the result is paired with
the ordered call trace. -/
def DeleteHeftyMessage
    (s3Del : GoStr → GoStr → Except GoStr Unit)
    (natDel : DeleteMessageInput → Except GoStr Unit)
    (params : DeleteMessageInput) : Except GoStr Unit × List Event :=
  match params.ReceiptHandle with
  | none => (natDel params, [.deleteNative params])
  | some rh =>
    match unwrapReceiptHandle rh with
    | .malformed e => (.error e, [])
    | .native _ => (natDel params, [.deleteNative params])
    | .offloaded nativeHandle s3Bucket s3Key =>
      match s3Del s3Bucket s3Key with
      | .error e =>
        (.error (gs "could not delete s3 object for large message. " ++ e),
          [.deleteS3 s3Bucket s3Key])
      | .ok _ =>
        let params2 : DeleteMessageInput := { params with ReceiptHandle := some nativeHandle }
        (natDel params2, [.deleteS3 s3Bucket s3Key, .deleteNative params2])

/-! ### Payload codec and digests

`largeSqsMsg.Serialize` / `Deserialize` and the `messages.Md5Digest` helper
are repository code that is not under `src/` (only their call sites are), so
they are modelled from the spec here.  The MD5 primitive itself is a Go
standard-library collaborator and is a parameter `md5` of every function that
hashes. -/

/-- Big-endian 4-byte length prefix (the spec's 4-byte big-endian length). -/
def lenBE4 (n : Nat) : List Nat :=
  [n / 16777216 % 256, n / 65536 % 256, n / 256 % 256, n % 256]

/-- Reads a big-endian 4-byte length prefix, returning it with the rest. -/
def readBE4 : List Nat → Option (Nat × List Nat)
  | b1 :: b2 :: b3 :: b4 :: rest => some (b1 * 16777216 + b2 * 65536 + b3 * 256 + b4, rest)
  | _ => none

/-- Ascending byte order on names. -/
def bytesLe : GoStr → GoStr → Bool
  | [], _ => true
  | _ :: _, [] => false
  | a :: as, b :: bs =>
    if a.toNat < b.toNat then true
    else if a.toNat = b.toNat then bytesLe as bs
    else false

/-- Insert into a name-sorted attribute list. -/
def insertByName (p : GoStr × MessageAttributeValue) :
    List (GoStr × MessageAttributeValue) → List (GoStr × MessageAttributeValue)
  | [] => [p]
  | q :: rest => if bytesLe p.1 q.1 then p :: q :: rest else q :: insertByName p rest

/-- Sort attributes by name in ascending byte order, as the digest
algorithm prescribes. -/
def sortByName : List (GoStr × MessageAttributeValue) → List (GoStr × MessageAttributeValue)
  | [] => []
  | p :: rest => insertByName p (sortByName rest)

/-- Modelled from the spec: the self-describing record for one attribute in
the serialized attribute section (and the byte sequence the attribute digest
hashes) — 4-byte big-endian name length, name bytes, 4-byte big-endian
dataType length, dataType bytes, a one-byte value-kind tag (1 for
string-like, 2 for binary), 4-byte big-endian value length, value bytes. -/
def encodeAttrRecord (k : GoStr) (v : MessageAttributeValue) : List Nat :=
  let dataType := awsToString v.DataType
  let binary := (gs "Binary").isPrefixOf dataType
  let valueBytes := if binary then v.BinaryValue else strBytes (awsToString v.StringValue)
  let tag : Nat := if binary then 2 else 1
  lenBE4 k.length ++ strBytes k ++ lenBE4 dataType.length ++ strBytes dataType ++
    tag :: lenBE4 valueBytes.length ++ valueBytes

/-- The serialized attribute section: the records of all attributes, sorted
by name in ascending byte order. -/
def attrSectionBytes (attrs : List (GoStr × MessageAttributeValue)) : List Nat :=
  ((sortByName attrs).map (fun p => encodeAttrRecord p.1 p.2)).flatten

/-- Modelled from the spec: the codec's attribute digest — the hash of the
encoded, name-sorted attribute records, and the empty string when there are
no attributes. -/
def AttributeDigest (md5 : List Nat → GoStr)
    (attrs : List (GoStr × MessageAttributeValue)) : GoStr :=
  if attrs.isEmpty then [] else md5 (attrSectionBytes attrs)

/-- Embeds the `largeSqsMsg` value built by `SendHeftyMessage` (the original
body and attribute map). -/
structure largeSqsMsg where
  Body : Option GoStr
  MessageAttributes : List (GoStr × MessageAttributeValue)
  deriving DecidableEq

/-- Modelled from the spec: `largeSqsMsg.Serialize` — a single blob holding a
4-byte big-endian body length, the body bytes, then the attribute section;
the recorded offsets are 4 (body start) and 4 + body length (attribute
start), and the returned digests are computed over exactly those byte
ranges, `blob[bodyOffset:attrOffset]` for the body and `blob[attrOffset:]`
for the attributes (empty-string digest when there are no attributes). -/
def serializeLargeMsg (md5 : List Nat → GoStr) (m : largeSqsMsg) :
    List Nat × GoStr × GoStr :=
  let bodyBytes := strBytes (awsToString m.Body)
  let blob := lenBE4 bodyBytes.length ++ bodyBytes ++ attrSectionBytes m.MessageAttributes
  let bodyOffset := 4
  let attrOffset := 4 + bodyBytes.length
  let bodyHash := md5 (List.take (attrOffset - bodyOffset) (List.drop bodyOffset blob))
  let attrHash :=
    if m.MessageAttributes.isEmpty then [] else md5 (List.drop attrOffset blob)
  (blob, bodyHash, attrHash)

/-- Modelled from the spec: the attribute-record parser of
`largeSqsMsg.Deserialize`, inverse of `encodeAttrRecord`; fails on truncated
or inconsistent length prefixes. -/
def parseAttrRecords : Nat → List Nat →
    Except GoStr (List (GoStr × MessageAttributeValue))
  | _, [] => .ok []
  | 0, _ :: _ => .error (gs "malformed attribute section")
  | fuel + 1, bytes =>
    match readBE4 bytes with
    | none => .error (gs "malformed attribute section")
    | some (nameLen, r1) =>
      if nameLen ≤ r1.length then
        let name := (r1.take nameLen).map Char.ofNat
        let r2 := r1.drop nameLen
        match readBE4 r2 with
        | none => .error (gs "malformed attribute section")
        | some (dtLen, r3) =>
          if dtLen ≤ r3.length then
            let dataType := (r3.take dtLen).map Char.ofNat
            match r3.drop dtLen with
            | [] => .error (gs "malformed attribute section")
            | tag :: r4 =>
              match readBE4 r4 with
              | none => .error (gs "malformed attribute section")
              | some (valLen, r5) =>
                if valLen ≤ r5.length then
                  let valueBytes := r5.take valLen
                  let value : MessageAttributeValue :=
                    if tag = 2 then ⟨some dataType, none, valueBytes⟩
                    else ⟨some dataType, some (valueBytes.map Char.ofNat), []⟩
                  match parseAttrRecords fuel (r5.drop valLen) with
                  | .error e => .error e
                  | .ok rest => .ok ((name, value) :: rest)
                else .error (gs "malformed attribute section")
          else .error (gs "malformed attribute section")
      else .error (gs "malformed attribute section")

/-- Modelled from the spec: `largeSqsMsg.Deserialize`, the inverse parse of
`serializeLargeMsg`; fails with a malformed-payload error on truncation. -/
def deserializeLargeMsg (bytes : List Nat) : Except GoStr largeSqsMsg :=
  match readBE4 bytes with
  | none => .error (gs "malformed payload")
  | some (bodyLen, rest) =>
    if bodyLen ≤ rest.length then
      match parseAttrRecords rest.length (rest.drop bodyLen) with
      | .error e => .error e
      | .ok attrs => .ok ⟨some ((rest.take bodyLen).map Char.ofNat), attrs⟩
    else .error (gs "malformed payload")

/-! ### Reference message of the SQS wrapper -/

/-- Embeds the package-internal `referenceMsg` of `sqs.go` (the fields set
by `newSqsReferenceMessage` and read by `ReceiveHeftyMessage`). -/
structure referenceMsg where
  S3Region : GoStr
  S3Bucket : GoStr
  S3Key : GoStr
  SqsMd5HashBody : GoStr
  SqsMd5HashMsgAttr : GoStr
  deriving DecidableEq

/-- Embeds `newSqsReferenceMessage`: requires the queue URL to split on `/`
into exactly five tokens; the S3 key is `queueName/uuid` where the queue
name is the fifth token; the two digests are stored as given.  The freshly
generated UUID is the collaborator parameter `uuid`. -/
def newSqsReferenceMessage (queueUrl : Option GoStr)
    (bucketName region bodyHash attributesHash uuid : GoStr) :
    Except GoStr referenceMsg :=
  match queueUrl with
  | none => .error (gs "queueUrl is nil")
  | some url =>
    let tokens := splitChar '/' url
    if tokens.length ≠ 5 then
      .error (gs "expected 5 tokens when splitting queueUrl by '/'")
    else
      .ok { S3Region := region, S3Bucket := bucketName,
            S3Key := tokens.getD 4 [] ++ '/' :: uuid,
            SqsMd5HashBody := bodyHash, SqsMd5HashMsgAttr := attributesHash }

/-! ### Go JSON marshalling of the reference messages -/

/-- Embeds the escaping Go's `encoding/json` applies to one character of a
string value (with the default HTML escaping). -/
def goJsonEscapeChar (c : Char) : List Char :=
  if c = '"' then gs "\\\""
  else if c = '\\' then gs "\\\\"
  else if c = '\n' then gs "\\n"
  else if c = '\r' then gs "\\r"
  else if c = '\t' then gs "\\t"
  else if c.toNat < 32 then
    gs "\\u00" ++ [ b64Char (c.toNat / 16 % 52), b64Char (c.toNat % 16 % 52)]
  else if c = '<' then gs "\\u003c"
  else if c = '>' then gs "\\u003e"
  else if c = '&' then gs "\\u0026"
  else [c]

/-- A Go JSON string literal: quoted and escaped. -/
def goJsonQuote (s : GoStr) : GoStr :=
  '"' :: (s.map goJsonEscapeChar).flatten ++ [ '"' ]

/-- Modelled from the spec: the serialized reference message the SQS wrapper
sends as the queue message body (`json.MarshalIndent(refMsg, "", "\t")`);
the json tags of the package-internal `referenceMsg` struct are not under
`src/`, so the spec's serialized field names are used, in the spec's fixed
order, in Go's indented style. -/
def marshalIndentReferenceMsg (m : referenceMsg) : GoStr :=
  gs "\x7b\n\t\"s3_region\": " ++ goJsonQuote m.S3Region ++
  gs ",\n\t\"s3_bucket\": " ++ goJsonQuote m.S3Bucket ++
  gs ",\n\t\"s3_key\": " ++ goJsonQuote m.S3Key ++
  gs ",\n\t\"md5_digest_msg_body\": " ++ goJsonQuote m.SqsMd5HashBody ++
  gs ",\n\t\"md5_digest_msg_attr\": " ++ goJsonQuote m.SqsMd5HashMsgAttr ++
  gs "\n\x7d"

/-- The marker attribute value attached to every offloaded SQS send:
`{DataType: "String", StringValue: "v0.1"}`. -/
def heftyMarkerAttributeValue : MessageAttributeValue :=
  ⟨some (gs "String"), some (gs "v0.1"), []⟩

/-! ### SendHeftyMessage -/

/-- Embeds `SendHeftyMessage` of `sqs.go`.  Collaborator outcomes are the
parameters `send` (the native `SendMessage`) and `upload` (the S3 manager
upload, keyed by bucket, key and payload); `md5` is the digest primitive and
`uuid` the freshly generated UUID.  Returns the result, the final value of
the caller's `params` struct (which Go mutates through a pointer), and the
ordered collaborator-call trace. -/
def SendHeftyMessage
    (send : SendMessageInput → Except GoStr SendMessageOutput)
    (upload : GoStr → GoStr → List Nat → Except GoStr Unit)
    (md5 : List Nat → GoStr) (uuid bucket region : GoStr)
    (params : SendMessageInput) :
    Except GoStr SendMessageOutput × SendMessageInput × List Event :=
  if params.MessageBody = none ∨ (awsToString params.MessageBody).length = 0 then
    (send params, params, [.sendNative params])
  else
    match msgSize params with
    | .error e => (.error (gs "unable to check message size. " ++ e), params, [])
    | .ok size =>
      if size ≤ MaxSqsMessageLengthBytes then
        (send params, params, [.sendNative params])
      else if size > MaxHeftyMessageLengthBytes then
        (.error (gs "message size greater than allowed message size"), params, [])
      else
        let largeMsg : largeSqsMsg := ⟨params.MessageBody, params.MessageAttributes⟩
        let serRes := serializeLargeMsg md5 largeMsg
        let serialized := serRes.1
        let bodyHash := serRes.2.1
        let attributesHash := serRes.2.2
        match newSqsReferenceMessage params.QueueUrl bucket region bodyHash attributesHash uuid with
        | .error e =>
          (.error (gs "unable to create reference message from queueUrl. " ++ e), params, [])
        | .ok refMsg =>
          match upload bucket refMsg.S3Key serialized with
          | .error e =>
            (.error (gs "unable to upload large message to s3. " ++ e), params,
              [.upload bucket refMsg.S3Key serialized])
          | .ok _ =>
            let jsonRefMsg := marshalIndentReferenceMsg refMsg
            let params2 : SendMessageInput :=
              { params with
                MessageBody := some jsonRefMsg
                MessageAttributes := [(heftyClientVersionMessageKey, heftyMarkerAttributeValue)] }
            match send params2 with
            | .error e =>
              (.error e, params2, [.upload bucket refMsg.S3Key serialized, .sendNative params2])
            | .ok out =>
              (.ok { out with
                     MD5OfMessageBody := some bodyHash
                     MD5OfMessageAttributes := some attributesHash },
                params2, [.upload bucket refMsg.S3Key serialized, .sendNative params2])

/-! ### ReceiveHeftyMessage -/

/-- Embeds one delivered message of `sqs.ReceiveMessageOutput` (the fields
the wrapper reads or writes). -/
structure SqsMessage where
  Body : Option GoStr
  MessageAttributes : List (GoStr × MessageAttributeValue)
  ReceiptHandle : Option GoStr
  MD5OfBody : Option GoStr
  MD5OfMessageAttributes : Option GoStr
  deriving DecidableEq

/-- Go map lookup `m[key]` on the attribute association list. -/
def findAttr (attrs : List (GoStr × MessageAttributeValue)) (key : GoStr) :
    Option MessageAttributeValue :=
  match attrs with
  | [] => none
  | (k, v) :: rest => if k = key then some v else findAttr rest key

/-- Embeds the per-message body of the loop in `ReceiveHeftyMessage`
(`sqs.go` lines 155 to 196): a message without the `hefty-client-version`
attribute is passed through unchanged; otherwise the body is parsed as a
reference message (`unmarshalRef`, Go's `json.Unmarshal`), the blob is
downloaded, deserialized, and substituted into body / attributes / digests,
and the receipt handle is wrapped with the blob location. -/
def ReceiveProcessMessage
    (unmarshalRef : GoStr → Except GoStr referenceMsg)
    (download : GoStr → GoStr → Except GoStr (List Nat))
    (msg : SqsMessage) : Except GoStr (SqsMessage × List Event) :=
  match findAttr msg.MessageAttributes heftyClientVersionMessageKey with
  | none => .ok (msg, [])
  | some _ =>
    match unmarshalRef (awsToString msg.Body) with
    | .error e => .error (gs "unable to unmarshal reference message. " ++ e)
    | .ok refMsg =>
      match download refMsg.S3Bucket refMsg.S3Key with
      | .error e => .error (gs "unable to get message from s3. " ++ e)
      | .ok bytes =>
        match deserializeLargeMsg bytes with
        | .error e => .error (gs "unable to decode bytes into large message type. " ++ e)
        | .ok largeMsg =>
          let newReceiptHandle :=
            wrapReceiptHandle (awsToString msg.ReceiptHandle) refMsg.S3Bucket refMsg.S3Key
          .ok ({ msg with
                 Body := largeMsg.Body
                 MessageAttributes := largeMsg.MessageAttributes
                 MD5OfBody := some refMsg.SqsMd5HashBody
                 MD5OfMessageAttributes := some refMsg.SqsMd5HashMsgAttr
                 ReceiptHandle := some newReceiptHandle },
            [.download refMsg.S3Bucket refMsg.S3Key])

/-! ### The `types` reference-message codec and the SNS wrapper -/

/-- Source constant `referenceMsgIdentifierKey` of the `types` package. -/
def referenceMsgIdentifierKey : GoStr := gs "d3131a62e0224688b77a506fd333dac4"

/-- Embeds `types.ReferenceMsg`. -/
structure ReferenceMsg where
  Identifier : GoStr
  S3Region : GoStr
  S3Bucket : GoStr
  S3Key : GoStr
  Md5DigestMsgBody : GoStr
  Md5DigestMsgAttr : GoStr
  deriving DecidableEq

/-- Embeds `types.NewReferenceMsg`: sets the fixed identifier and the given
location and digest fields. -/
def NewReferenceMsg (s3Region s3Bucket s3Key md5Body md5Attr : GoStr) : ReferenceMsg :=
  { Identifier := referenceMsgIdentifierKey, S3Region := s3Region, S3Bucket := s3Bucket,
    S3Key := s3Key, Md5DigestMsgBody := md5Body, Md5DigestMsgAttr := md5Attr }

/-- Embeds the `jsonReferenceMsgPrefix` computed once at package
initialization: `{"identifier":"<referenceMsgIdentifierKey>",`. -/
def jsonReferenceMsgPrefixStr : GoStr :=
  gs "\x7b\"identifier\":\"d3131a62e0224688b77a506fd333dac4\","

/-- Embeds `types.IsReferenceMsg`: a cheap prefix test against the fixed
identifier marker. -/
def IsReferenceMsg (msg : GoStr) : Bool :=
  jsonReferenceMsgPrefixStr.isPrefixOf msg

/-- Embeds Go's `json.Marshal` on `types.ReferenceMsg`: compact JSON with
the struct's fields in declaration order under their json tags. -/
def marshalReferenceMsg (m : ReferenceMsg) : GoStr :=
  gs "\x7b\"identifier\":" ++ goJsonQuote m.Identifier ++
  gs ",\"s3_region\":" ++ goJsonQuote m.S3Region ++
  gs ",\"s3_bucket\":" ++ goJsonQuote m.S3Bucket ++
  gs ",\"s3_key\":" ++ goJsonQuote m.S3Key ++
  gs ",\"md5_digest_msg_body\":" ++ goJsonQuote m.Md5DigestMsgBody ++
  gs ",\"md5_digest_msg_attr\":" ++ goJsonQuote m.Md5DigestMsgAttr ++
  gs "\x7d"

/-- Embeds Go's `json.Marshal` on `types.SQSMessage` (json tag `Message`). -/
def marshalSQSMessage (s : GoStr) : GoStr :=
  gs "\x7b\"Message\":" ++ goJsonQuote s ++ gs "\x7d"

/-- Embeds Go's `json.Marshal` on `types.SNSMessage` (json tag `default`). -/
def marshalSNSMessage (s : GoStr) : GoStr :=
  gs "\x7b\"default\":" ++ goJsonQuote s ++ gs "\x7d"

/-- Fueled worker for `replaceAll`. -/
def replaceAllFuel (old new : GoStr) : Nat → GoStr → GoStr
  | 0, s => s
  | _ + 1, [] => []
  | fuel + 1, c :: rest =>
    if old ≠ [] ∧ old.isPrefixOf (c :: rest) then
      new ++ replaceAllFuel old new fuel ((c :: rest).drop old.length)
    else
      c :: replaceAllFuel old new fuel rest

/-- Embeds Go's `strings.ReplaceAll` (for the non-empty patterns the SNS
wrapper uses): replace every non-overlapping occurrence of `old`, scanning
left to right. -/
def replaceAll (old new s : GoStr) : GoStr :=
  replaceAllFuel old new s.length s

example : replaceAll (gs "\\\"") (gs "\"") (gs "a\\\"b\\\"") = gs "a\"b\"" := by decide

/-- Embeds `sns.PublishInput` (the fields the wrapper reads or writes). -/
structure PublishInput where
  Message : Option GoStr
  MessageAttributes : List (GoStr × MessageAttributeValue)
  TopicArn : Option GoStr
  deriving DecidableEq

/-- Trace of collaborator calls made by the SNS wrapper. -/
inductive SnsEvent
  | publishNative (params : PublishInput)
  | upload (bucket key : GoStr) (payload : List Nat)
  deriving DecidableEq

/-- Modelled from the spec: the missing constant `MaxAwsMessageLengthBytes`,
the queue-native inline threshold of 262 144 bytes. -/
def MaxAwsMessageLengthBytes : Nat := 262144

/-- Modelled from the spec: `messages.MessageSize` — the same accounting
formula as `msgSize`, over a body and a normalized attribute map. -/
def messageSize (body : GoStr) (attrs : List (GoStr × MessageAttributeValue)) :
    Except GoStr Nat :=
  match msgSizeAttrs attrs with
  | .error e => .error e
  | .ok a => .ok (body.length + a)

/-- Modelled from the spec: `messages.HeftyMessage.Serialize` — the blob
(4-byte big-endian body length, body bytes, attribute section) together with
the body offset and the attribute offset it returns; the SNS wrapper hashes
the byte ranges `serialized[bodyOffset:msgAttrOffset]` and
`serialized[msgAttrOffset:]` itself. -/
def serializeHeftyMsg (body : GoStr) (attrs : List (GoStr × MessageAttributeValue)) :
    List Nat × Nat × Nat :=
  let bodyBytes := strBytes body
  (lenBE4 bodyBytes.length ++ bodyBytes ++ attrSectionBytes attrs, 4, 4 + bodyBytes.length)

/-- Embeds `newSnsReferenceMessage`: requires the topic ARN to split on `:`
into exactly six tokens; the S3 key is built from the fifth token and the
freshly generated UUID. -/
def newSnsReferenceMessage (topicArn : Option GoStr)
    (bucketName region msgBodyHash msgAttrHash uuid : GoStr) :
    Except GoStr ReferenceMsg :=
  match topicArn with
  | none => .error (gs "topicArn is nil")
  | some arn =>
    let tokens := splitChar ':' arn
    if tokens.length ≠ 6 then
      .error (gs "expected 6 tokens when splitting topicArn by ':'")
    else
      .ok (NewReferenceMsg region bucketName (tokens.getD 4 [] ++ '/' :: uuid)
        msgBodyHash msgAttrHash)

/-- Embeds `PublishHeftyMessage` of the SNS wrapper.  A message that is
inline-sized (unless `alwaysSendToS3`) is published natively; an offloaded
message is wrapped in an SQS envelope, serialized, hashed, uploaded, and a
doubly-marshalled then unescaped reference message is published with the
attributes cleared; a deferred block then restores `params.Message` from
`heftyMsg.Body` (the SQS-envelope JSON, which is what `params.Message`
pointed to when `heftyMsg` was built) and `params.MessageAttributes` from
the saved original attribute map.  Returns the result, the final value of
the caller's `params` struct, and the collaborator-call trace. -/
def PublishHeftyMessage
    (publish : PublishInput → Except GoStr Unit)
    (upload : GoStr → GoStr → List Nat → Except GoStr Unit)
    (md5 : List Nat → GoStr) (uuid bucket region : GoStr) (alwaysSendToS3 : Bool)
    (params : PublishInput) : Except GoStr Unit × PublishInput × List SnsEvent :=
  if params.Message = none ∨ (awsToString params.Message).length = 0 then
    (publish params, params, [.publishNative params])
  else
    let msgAttributes := params.MessageAttributes
    match messageSize (awsToString params.Message) msgAttributes with
    | .error e => (.error (gs "unable to get size of message. " ++ e), params, [])
    | .ok size =>
      if ¬ alwaysSendToS3 ∧ size ≤ MaxAwsMessageLengthBytes then
        (publish params, params, [.publishNative params])
      else if size > MaxHeftyMessageLengthBytes then
        (.error (gs "message size greater than allowed message size"), params, [])
      else
        let jsonSQSRefMsg := marshalSQSMessage (awsToString params.Message)
        let params1 : PublishInput := { params with Message := some jsonSQSRefMsg }
        let ser := serializeHeftyMsg jsonSQSRefMsg msgAttributes
        let serialized := ser.1
        let bodyOffset := ser.2.1
        let msgAttrOffset := ser.2.2
        let msgBodyHash := md5 ((serialized.drop bodyOffset).take (msgAttrOffset - bodyOffset))
        let msgAttrHash := if msgAttributes.length > 0 then md5 (serialized.drop msgAttrOffset) else []
        match newSnsReferenceMessage params.TopicArn bucket region msgBodyHash msgAttrHash uuid with
        | .error e =>
          (.error (gs "unable to create reference message from topicArn. " ++ e), params1, [])
        | .ok refMsg =>
          match upload bucket refMsg.S3Key serialized with
          | .error e =>
            (.error (gs "unable to upload hefty message to s3. " ++ e), params1,
              [.upload bucket refMsg.S3Key serialized])
          | .ok _ =>
            let jsonRefMsg := marshalReferenceMsg refMsg
            let jsonSNSRefMsg := marshalSNSMessage jsonRefMsg
            let refMsgStr :=
              replaceAll (gs "\\\\") (gs "\\")
                (replaceAll (gs "\\\"") (gs "\"")
                  (replaceAll (gs "\n") [] jsonSNSRefMsg))
            let params2 : PublishInput :=
              { params1 with Message := some refMsgStr, MessageAttributes := [] }
            let finalParams : PublishInput :=
              { params2 with
                Message := some jsonSQSRefMsg
                MessageAttributes := params.MessageAttributes }
            (publish params2, finalParams,
              [.upload bucket refMsg.S3Key serialized, .publishNative params2])

/-! ### Claim C3: the size-calculation algorithm -/

/-- Whether the wrapper recognizes the attribute's dataType (leading token
`String`, `Number` or `Binary`). -/
def attrSupported (v : MessageAttributeValue) : Bool :=
  let dataType := awsToString v.DataType
  (gs "String").isPrefixOf dataType || (gs "Number").isPrefixOf dataType ||
    (gs "Binary").isPrefixOf dataType

/-- The per-attribute size the claim describes: name length plus dataType
length plus value length, the value being the string value for a leading
token `String` or `Number` and the binary value for `Binary`. -/
def specAttrSize (k : GoStr) (v : MessageAttributeValue) : Nat :=
  let dataType := awsToString v.DataType
  k.length + dataType.length +
    (if (gs "String").isPrefixOf dataType ∨ (gs "Number").isPrefixOf dataType then
      (awsToString v.StringValue).length
    else if (gs "Binary").isPrefixOf dataType then v.BinaryValue.length
    else 0)

theorem attrSize_ok (k : GoStr) (v : MessageAttributeValue)
    (h : attrSupported v = true) : attrSize k v = .ok (specAttrSize k v) := by
  unfold attrSize specAttrSize
  dsimp only
  by_cases h1 : (gs "String").isPrefixOf (awsToString v.DataType) = true ∨
      (gs "Number").isPrefixOf (awsToString v.DataType) = true
  · rw [if_pos h1, if_pos h1]
  · rw [if_neg h1, if_neg h1]
    by_cases h2 : (gs "Binary").isPrefixOf (awsToString v.DataType) = true
    · rw [if_pos h2, if_pos h2]
    · exfalso
      unfold attrSupported at h
      simp only [Bool.or_eq_true] at h
      rcases h with (h | h) | h
      · exact h1 (Or.inl h)
      · exact h1 (Or.inr h)
      · exact h2 h

theorem attrSize_err (k : GoStr) (v : MessageAttributeValue)
    (h : attrSupported v = false) : ∃ e, attrSize k v = .error e := by
  unfold attrSupported at h
  simp only [Bool.or_eq_false_iff] at h
  refine ⟨gs "encountered unexpected data type for message: " ++ awsToString v.DataType, ?_⟩
  unfold attrSize
  rw [if_neg (by rw [h.1.1, h.1.2]; simp), if_neg (by rw [h.2]; simp)]

theorem msgSizeAttrs_ok :
    ∀ attrs : List (GoStr × MessageAttributeValue),
      (∀ p ∈ attrs, attrSupported p.2 = true) →
      msgSizeAttrs attrs = .ok ((attrs.map (fun p => specAttrSize p.1 p.2)).sum) := by
  intro attrs
  induction attrs with
  | nil => intro; rfl
  | cons p rest ih =>
    intro h
    obtain ⟨k, v⟩ := p
    simp only [msgSizeAttrs]
    rw [attrSize_ok k v (h (k, v) (by simp)), ih (fun q hq => h q (by simp [hq]))]
    simp

theorem msgSizeAttrs_err :
    ∀ attrs : List (GoStr × MessageAttributeValue), ∀ p ∈ attrs,
      attrSupported p.2 = false → ∃ e, msgSizeAttrs attrs = .error e := by
  intro attrs
  induction attrs with
  | nil => intro p hp; exact absurd hp (List.not_mem_nil p)
  | cons q rest ih =>
    intro p hp hbad
    obtain ⟨k, v⟩ := q
    simp only [msgSizeAttrs]
    rcases List.mem_cons.1 hp with rfl | hmem
    · obtain ⟨e, he⟩ := attrSize_err k v hbad
      exact ⟨e, by rw [he]⟩
    · match hav : attrSize k v with
      | .error e => exact ⟨e, rfl⟩
      | .ok n =>
        obtain ⟨e, he⟩ := ih p hmem hbad
        exact ⟨e, by rw [he]⟩

/-- C3: for every message body and attribute mapping, the computed size is
the body length plus, for each attribute, the lengths of its name, its
dataType string, and its value (string length for a leading token `String`
or `Number`, binary length for `Binary`); an attribute whose dataType
matches none of the recognized leading tokens makes the size calculation
fail with the unsupported-data-type error.  In particular the body `"hi"`
with the single attribute `{name "k", dataType "String", value "v"}` has
size 2+1+6+1 = 10. -/
theorem msgSize_spec (body : GoStr) (attrs : List (GoStr × MessageAttributeValue))
    (qurl : Option GoStr) :
    ((∀ p ∈ attrs, attrSupported p.2 = true) →
      msgSize ⟨some body, attrs, qurl⟩ =
        .ok (body.length + (attrs.map (fun p => specAttrSize p.1 p.2)).sum)) ∧
    (∀ p ∈ attrs, attrSupported p.2 = false →
      ∃ e, msgSize ⟨some body, attrs, qurl⟩ = .error e) ∧
    msgSize ⟨some (gs "hi"), [(gs "k", ⟨some (gs "String"), some (gs "v"), []⟩)], none⟩ =
      .ok 10 := by
  refine ⟨?_, ?_, by decide⟩
  · intro h
    unfold msgSize
    rw [msgSizeAttrs_ok attrs h]
    rfl
  · intro p hp hbad
    obtain ⟨e, he⟩ := msgSizeAttrs_err attrs p hp hbad
    exact ⟨e, by unfold msgSize; rw [he]⟩

/-- Helper simp facts about the embedding primitives. -/
@[simp] theorem awsToString_some (s : GoStr) : awsToString (some s) = s := rfl

@[simp] theorem awsToString_none : awsToString none = [] := rfl

@[simp] theorem lenBE4_length (n : Nat) : (lenBE4 n).length = 4 := rfl

@[simp] theorem strBytes_length (s : GoStr) : (strBytes s).length = s.length := by
  simp [strBytes]

theorem msgSize_no_attrs (b : GoStr) (qurl : Option GoStr) :
    msgSize ⟨some b, [], qurl⟩ = .ok b.length := by
  unfold msgSize msgSizeAttrs
  simp

/-- Witness for C3 at the claim's own example input. -/
theorem msgSize_spec_witness :
    msgSize ⟨some (gs "hi"), [(gs "k", ⟨some (gs "String"), some (gs "v"), []⟩)], none⟩ =
      .ok ((gs "hi").length +
        ([(gs "k", (⟨some (gs "String"), some (gs "v"), []⟩ : MessageAttributeValue))].map
          (fun p => specAttrSize p.1 p.2)).sum) :=
  (msgSize_spec (gs "hi") [(gs "k", ⟨some (gs "String"), some (gs "v"), []⟩)] none).1
    (by decide)


/-! ### Characterization of the send paths -/

/-- The S3 key `queueName/uuid` an offloaded SQS send stores under. -/
def sqsOffloadKey (u uuid : GoStr) : GoStr := (splitChar '/' u).getD 4 [] ++ '/' :: uuid

/-- The serialized payload an offloaded SQS send uploads. -/
def sqsOffloadSerialized (md5 : List Nat → GoStr) (b : GoStr)
    (attrs : List (GoStr × MessageAttributeValue)) : List Nat :=
  (serializeLargeMsg md5 ⟨some b, attrs⟩).1

/-- The reference message an offloaded SQS send builds. -/
def sqsOffloadRefMsg (md5 : List Nat → GoStr) (uuid bucket region b : GoStr)
    (attrs : List (GoStr × MessageAttributeValue)) (u : GoStr) : referenceMsg :=
  { S3Region := region, S3Bucket := bucket, S3Key := sqsOffloadKey u uuid,
    SqsMd5HashBody := (serializeLargeMsg md5 ⟨some b, attrs⟩).2.1,
    SqsMd5HashMsgAttr := (serializeLargeMsg md5 ⟨some b, attrs⟩).2.2 }

/-- The queue-message input an offloaded SQS send finally sends natively:
the reference-message JSON as body, only the marker attribute. -/
def sqsOffloadParams2 (md5 : List Nat → GoStr) (uuid bucket region b : GoStr)
    (attrs : List (GoStr × MessageAttributeValue)) (u : GoStr) : SendMessageInput :=
  ⟨some (marshalIndentReferenceMsg (sqsOffloadRefMsg md5 uuid bucket region b attrs u)),
   [(heftyClientVersionMessageKey, heftyMarkerAttributeValue)], some u⟩

theorem newSqsReferenceMessage_ok (u bucket region bodyHash attributesHash uuid : GoStr)
    (h5 : (splitChar '/' u).length = 5) :
    newSqsReferenceMessage (some u) bucket region bodyHash attributesHash uuid =
      .ok { S3Region := region, S3Bucket := bucket,
            S3Key := (splitChar '/' u).getD 4 [] ++ '/' :: uuid,
            SqsMd5HashBody := bodyHash, SqsMd5HashMsgAttr := attributesHash } := by
  unfold newSqsReferenceMessage
  dsimp only
  rw [if_neg (by simp [h5])]

/-- On an inline-sized message, `SendHeftyMessage` is the native send. -/
theorem sendHefty_inline_eq
    (send : SendMessageInput → Except GoStr SendMessageOutput)
    (upload : GoStr → GoStr → List Nat → Except GoStr Unit)
    (md5 : List Nat → GoStr) (uuid bucket region : GoStr)
    (b : GoStr) (attrs : List (GoStr × MessageAttributeValue)) (qurl : Option GoStr)
    (size : Nat) (hb : b ≠ [])
    (hsize : msgSize ⟨some b, attrs, qurl⟩ = .ok size)
    (hle : size ≤ MaxSqsMessageLengthBytes) :
    SendHeftyMessage send upload md5 uuid bucket region ⟨some b, attrs, qurl⟩ =
      (send ⟨some b, attrs, qurl⟩, ⟨some b, attrs, qurl⟩,
        [.sendNative ⟨some b, attrs, qurl⟩]) := by
  unfold SendHeftyMessage
  rw [if_neg (by simp [hb]), hsize]
  dsimp only
  rw [if_pos hle]

/-- On an oversize message, `SendHeftyMessage` fails without any call. -/
theorem sendHefty_reject_eq
    (send : SendMessageInput → Except GoStr SendMessageOutput)
    (upload : GoStr → GoStr → List Nat → Except GoStr Unit)
    (md5 : List Nat → GoStr) (uuid bucket region : GoStr)
    (b : GoStr) (attrs : List (GoStr × MessageAttributeValue)) (qurl : Option GoStr)
    (size : Nat) (hb : b ≠ [])
    (hsize : msgSize ⟨some b, attrs, qurl⟩ = .ok size)
    (hgt : size > MaxHeftyMessageLengthBytes) :
    SendHeftyMessage send upload md5 uuid bucket region ⟨some b, attrs, qurl⟩ =
      (.error (gs "message size greater than allowed message size"),
        ⟨some b, attrs, qurl⟩, []) := by
  unfold SendHeftyMessage
  rw [if_neg (by simp [hb]), hsize]
  dsimp only
  rw [if_neg (by unfold MaxSqsMessageLengthBytes MaxHeftyMessageLengthBytes at *; omega),
    if_pos hgt]

/-- On an offload-sized message whose upload fails, `SendHeftyMessage`
reports the upload failure; only the upload was attempted. -/
theorem sendHefty_offload_uploadFail
    (send : SendMessageInput → Except GoStr SendMessageOutput)
    (upload : GoStr → GoStr → List Nat → Except GoStr Unit)
    (md5 : List Nat → GoStr) (uuid bucket region : GoStr)
    (b : GoStr) (attrs : List (GoStr × MessageAttributeValue)) (u : GoStr)
    (size : Nat) (e : GoStr) (hb : b ≠ [])
    (hsize : msgSize ⟨some b, attrs, some u⟩ = .ok size)
    (h1 : MaxSqsMessageLengthBytes < size)
    (h2 : size ≤ MaxHeftyMessageLengthBytes)
    (h5 : (splitChar '/' u).length = 5)
    (hup : upload bucket (sqsOffloadKey u uuid) (sqsOffloadSerialized md5 b attrs) = .error e) :
    SendHeftyMessage send upload md5 uuid bucket region ⟨some b, attrs, some u⟩ =
      (.error (gs "unable to upload large message to s3. " ++ e),
        ⟨some b, attrs, some u⟩,
        [.upload bucket (sqsOffloadKey u uuid) (sqsOffloadSerialized md5 b attrs)]) := by
  unfold sqsOffloadKey sqsOffloadSerialized at hup ⊢
  unfold SendHeftyMessage
  rw [if_neg (by simp [hb]), hsize]
  dsimp only
  rw [if_neg (by omega), if_neg (by omega),
    newSqsReferenceMessage_ok u bucket region _ _ uuid h5]
  dsimp only
  rw [hup]

/-- On an offload-sized message whose upload succeeds but whose native queue
send fails, `SendHeftyMessage` returns the send failure; the trace is the
upload followed by the failed send, with no compensating delete. -/
theorem sendHefty_offload_sendFail
    (send : SendMessageInput → Except GoStr SendMessageOutput)
    (upload : GoStr → GoStr → List Nat → Except GoStr Unit)
    (md5 : List Nat → GoStr) (uuid bucket region : GoStr)
    (b : GoStr) (attrs : List (GoStr × MessageAttributeValue)) (u : GoStr)
    (size : Nat) (e : GoStr) (hb : b ≠ [])
    (hsize : msgSize ⟨some b, attrs, some u⟩ = .ok size)
    (h1 : MaxSqsMessageLengthBytes < size)
    (h2 : size ≤ MaxHeftyMessageLengthBytes)
    (h5 : (splitChar '/' u).length = 5)
    (hup : upload bucket (sqsOffloadKey u uuid) (sqsOffloadSerialized md5 b attrs) = .ok ())
    (hsend : send (sqsOffloadParams2 md5 uuid bucket region b attrs u) = .error e) :
    SendHeftyMessage send upload md5 uuid bucket region ⟨some b, attrs, some u⟩ =
      (.error e, sqsOffloadParams2 md5 uuid bucket region b attrs u,
        [.upload bucket (sqsOffloadKey u uuid) (sqsOffloadSerialized md5 b attrs),
         .sendNative (sqsOffloadParams2 md5 uuid bucket region b attrs u)]) := by
  simp only [sqsOffloadKey, sqsOffloadSerialized, sqsOffloadParams2, sqsOffloadRefMsg]
    at hup hsend ⊢
  unfold SendHeftyMessage
  rw [if_neg (by simp [hb]), hsize]
  dsimp only
  rw [if_neg (by omega), if_neg (by omega),
    newSqsReferenceMessage_ok u bucket region _ _ uuid h5]
  dsimp only
  rw [hup]
  dsimp only
  rw [hsend]

/-- On an offload-sized message whose upload and native send both succeed,
`SendHeftyMessage` returns the native output with both digests overwritten;
the trace is the upload followed by the native send of the reference
message. -/
theorem sendHefty_offload_sendOk
    (send : SendMessageInput → Except GoStr SendMessageOutput)
    (upload : GoStr → GoStr → List Nat → Except GoStr Unit)
    (md5 : List Nat → GoStr) (uuid bucket region : GoStr)
    (b : GoStr) (attrs : List (GoStr × MessageAttributeValue)) (u : GoStr)
    (size : Nat) (out : SendMessageOutput) (hb : b ≠ [])
    (hsize : msgSize ⟨some b, attrs, some u⟩ = .ok size)
    (h1 : MaxSqsMessageLengthBytes < size)
    (h2 : size ≤ MaxHeftyMessageLengthBytes)
    (h5 : (splitChar '/' u).length = 5)
    (hup : upload bucket (sqsOffloadKey u uuid) (sqsOffloadSerialized md5 b attrs) = .ok ())
    (hsend : send (sqsOffloadParams2 md5 uuid bucket region b attrs u) = .ok out) :
    SendHeftyMessage send upload md5 uuid bucket region ⟨some b, attrs, some u⟩ =
      (.ok { out with
             MD5OfMessageBody := some (serializeLargeMsg md5 ⟨some b, attrs⟩).2.1
             MD5OfMessageAttributes := some (serializeLargeMsg md5 ⟨some b, attrs⟩).2.2 },
        sqsOffloadParams2 md5 uuid bucket region b attrs u,
        [.upload bucket (sqsOffloadKey u uuid) (sqsOffloadSerialized md5 b attrs),
         .sendNative (sqsOffloadParams2 md5 uuid bucket region b attrs u)]) := by
  simp only [sqsOffloadKey, sqsOffloadSerialized, sqsOffloadParams2, sqsOffloadRefMsg]
    at hup hsend ⊢
  unfold SendHeftyMessage
  rw [if_neg (by simp [hb]), hsize]
  dsimp only
  rw [if_neg (by omega), if_neg (by omega),
    newSqsReferenceMessage_ok u bucket region _ _ uuid h5]
  dsimp only
  rw [hup]
  dsimp only
  rw [hsend]

/-! ### Claim C1: the threshold law -/

/-- C1: a message whose computed size is at most `MaxSqsMessageLengthBytes`
(262 144) is sent inline through the native queue send; a message whose size
exceeds `MaxHeftyMessageLengthBytes` (26 214 400) fails with the
message-too-large error and nothing is sent (empty call trace); a message
whose size lies strictly between the two limits is offloaded — the first
collaborator call is the S3 upload of the serialized payload. -/
theorem SendHeftyMessage_threshold
    (send : SendMessageInput → Except GoStr SendMessageOutput)
    (upload : GoStr → GoStr → List Nat → Except GoStr Unit)
    (md5 : List Nat → GoStr) (uuid bucket region : GoStr)
    (b : GoStr) (attrs : List (GoStr × MessageAttributeValue)) (u : GoStr)
    (size : Nat) (hb : b ≠ [])
    (hsize : msgSize ⟨some b, attrs, some u⟩ = .ok size) :
    (size ≤ MaxSqsMessageLengthBytes →
      SendHeftyMessage send upload md5 uuid bucket region ⟨some b, attrs, some u⟩ =
        (send ⟨some b, attrs, some u⟩, ⟨some b, attrs, some u⟩,
          [.sendNative ⟨some b, attrs, some u⟩])) ∧
    (MaxHeftyMessageLengthBytes < size →
      (∃ e, (SendHeftyMessage send upload md5 uuid bucket region
        ⟨some b, attrs, some u⟩).1 = .error e) ∧
      (SendHeftyMessage send upload md5 uuid bucket region ⟨some b, attrs, some u⟩).2.2 = []) ∧
    (MaxSqsMessageLengthBytes < size → size < MaxHeftyMessageLengthBytes →
      (splitChar '/' u).length = 5 →
      ∃ key blob rest,
        (SendHeftyMessage send upload md5 uuid bucket region
          ⟨some b, attrs, some u⟩).2.2 = .upload bucket key blob :: rest) := by
  refine ⟨?_, ?_, ?_⟩
  · intro hle
    exact sendHefty_inline_eq send upload md5 uuid bucket region b attrs (some u) size hb hsize hle
  · intro hgt
    rw [sendHefty_reject_eq send upload md5 uuid bucket region b attrs (some u) size hb hsize hgt]
    exact ⟨⟨_, rfl⟩, rfl⟩
  · intro hlo hhi h5
    cases hup : upload bucket (sqsOffloadKey u uuid) (sqsOffloadSerialized md5 b attrs) with
    | error e =>
      rw [sendHefty_offload_uploadFail send upload md5 uuid bucket region b attrs u size e
        hb hsize hlo (by omega) h5 hup]
      exact ⟨_, _, _, rfl⟩
    | ok v =>
      cases v
      cases hsend : send (sqsOffloadParams2 md5 uuid bucket region b attrs u) with
      | error e =>
        rw [sendHefty_offload_sendFail send upload md5 uuid bucket region b attrs u size e
          hb hsize hlo (by omega) h5 hup hsend]
        exact ⟨_, _, _, rfl⟩
      | ok out =>
        rw [sendHefty_offload_sendOk send upload md5 uuid bucket region b attrs u size out
          hb hsize hlo (by omega) h5 hup hsend]
        exact ⟨_, _, _, rfl⟩

/-- Witness for C1: a 2-byte message is sent inline. -/
theorem SendHeftyMessage_threshold_witness :
    SendHeftyMessage (fun _ => .ok ⟨none, none, none⟩) (fun _ _ _ => .ok ())
      (fun _ => []) (gs "u") (gs "bkt") (gs "r") ⟨some (gs "hi"), [], some (gs "q")⟩ =
      (.ok ⟨none, none, none⟩,
        ⟨some (gs "hi"), [], some (gs "q")⟩,
        [.sendNative ⟨some (gs "hi"), [], some (gs "q")⟩]) :=
  (SendHeftyMessage_threshold
    (fun _ => .ok (⟨none, none, none⟩ : SendMessageOutput)) (fun _ _ _ => .ok ())
    (fun _ => []) (gs "u") (gs "bkt") (gs "r") (gs "hi") [] (gs "q") 2
    (by decide) (by decide)).1 (by decide)

/-! ### Claim C2: digest stability across the offload path -/

theorem serializeLargeMsg_hashes (md5 : List Nat → GoStr) (b : GoStr)
    (attrs : List (GoStr × MessageAttributeValue)) :
    (serializeLargeMsg md5 ⟨some b, attrs⟩).2.1 = md5 (strBytes b) ∧
    (serializeLargeMsg md5 ⟨some b, attrs⟩).2.2 = AttributeDigest md5 attrs := by
  unfold serializeLargeMsg AttributeDigest
  dsimp only
  constructor
  · congr 1
    rw [awsToString_some, List.append_assoc,
      List.drop_left' (lenBE4_length (strBytes b).length),
      show (4 : Nat) + (strBytes b).length - 4 = (strBytes b).length from by omega,
      List.take_left' rfl]
  · by_cases hA : attrs.isEmpty
    · rw [if_pos hA, if_pos hA]
    · rw [if_neg hA, if_neg hA]
      congr 1
      rw [awsToString_some, List.drop_left' (by simp)]

/-- C2: on every offloaded send, the body digest and the attribute digest
recorded in the reference message equal the digest of the original message
body and the digest of the original attribute set computed directly (the
values an inline send of the same message would have carried), and the send
output returned to the caller holds exactly these digests. -/
theorem SendHeftyMessage_digest_stability
    (sendOut : SendMessageOutput) (md5 : List Nat → GoStr) (uuid bucket region : GoStr)
    (b : GoStr) (attrs : List (GoStr × MessageAttributeValue)) (u : GoStr)
    (size : Nat) (hb : b ≠ [])
    (hsize : msgSize ⟨some b, attrs, some u⟩ = .ok size)
    (h1 : MaxSqsMessageLengthBytes < size)
    (h2 : size ≤ MaxHeftyMessageLengthBytes)
    (h5 : (splitChar '/' u).length = 5) :
    ∃ refMsg : referenceMsg,
      newSqsReferenceMessage (some u) bucket region (md5 (strBytes b))
        (AttributeDigest md5 attrs) uuid = .ok refMsg ∧
      refMsg.SqsMd5HashBody = md5 (strBytes b) ∧
      refMsg.SqsMd5HashMsgAttr = AttributeDigest md5 attrs ∧
      SendHeftyMessage (fun _ => .ok sendOut) (fun _ _ _ => .ok ()) md5 uuid bucket region
        ⟨some b, attrs, some u⟩ =
        (.ok { sendOut with
               MD5OfMessageBody := some (md5 (strBytes b))
               MD5OfMessageAttributes := some (AttributeDigest md5 attrs) },
          sqsOffloadParams2 md5 uuid bucket region b attrs u,
          [.upload bucket refMsg.S3Key (sqsOffloadSerialized md5 b attrs),
           .sendNative (sqsOffloadParams2 md5 uuid bucket region b attrs u)]) := by
  obtain ⟨hBody, hAttr⟩ := serializeLargeMsg_hashes md5 b attrs
  refine ⟨sqsOffloadRefMsg md5 uuid bucket region b attrs u, ?_, hBody, hAttr, ?_⟩
  · rw [newSqsReferenceMessage_ok u bucket region _ _ uuid h5]
    unfold sqsOffloadRefMsg sqsOffloadKey
    rw [hBody, hAttr]
  · rw [sendHefty_offload_sendOk (fun _ => .ok sendOut) (fun _ _ _ => .ok ()) md5 uuid
      bucket region b attrs u size sendOut hb hsize h1 h2 h5 rfl rfl]
    unfold sqsOffloadRefMsg
    rw [hBody, hAttr]

/-- Witness for C2 at the spec's Scenario A: a body of 300 000 zero bytes
and no attributes is offloaded, and the recorded body digest is the digest
of that body computed directly. -/
theorem SendHeftyMessage_digest_stability_witness :
    ∃ refMsg : referenceMsg,
      newSqsReferenceMessage
        (some (gs "https://sqs.us-west-2.amazonaws.com/765908583888/MyTestQueue"))
        (gs "bkt") (gs "r")
        ((fun bs => [ b64Char (bs.length % 52)]) (strBytes (List.replicate 300000 (Char.ofNat 0))))
        (AttributeDigest (fun bs => [ b64Char (bs.length % 52)]) []) (gs "u") = .ok refMsg ∧
      refMsg.SqsMd5HashBody =
        (fun bs => [ b64Char (bs.length % 52)]) (strBytes (List.replicate 300000 (Char.ofNat 0))) ∧
      refMsg.SqsMd5HashMsgAttr = AttributeDigest (fun bs => [ b64Char (bs.length % 52)]) [] ∧
      SendHeftyMessage (fun _ => .ok ⟨none, none, none⟩) (fun _ _ _ => .ok ())
        (fun bs => [ b64Char (bs.length % 52)]) (gs "u") (gs "bkt") (gs "r")
        ⟨some (List.replicate 300000 (Char.ofNat 0)), [],
         some (gs "https://sqs.us-west-2.amazonaws.com/765908583888/MyTestQueue")⟩ =
        (.ok { (⟨none, none, none⟩ : SendMessageOutput) with
               MD5OfMessageBody :=
                 some ((fun bs => [ b64Char (bs.length % 52)])
                   (strBytes (List.replicate 300000 (Char.ofNat 0))))
               MD5OfMessageAttributes :=
                 some (AttributeDigest (fun bs => [ b64Char (bs.length % 52)]) []) },
          sqsOffloadParams2 (fun bs => [ b64Char (bs.length % 52)]) (gs "u") (gs "bkt") (gs "r")
            (List.replicate 300000 (Char.ofNat 0)) []
            (gs "https://sqs.us-west-2.amazonaws.com/765908583888/MyTestQueue"),
          [.upload (gs "bkt") refMsg.S3Key
             (sqsOffloadSerialized (fun bs => [ b64Char (bs.length % 52)])
               (List.replicate 300000 (Char.ofNat 0)) []),
           .sendNative (sqsOffloadParams2 (fun bs => [ b64Char (bs.length % 52)])
             (gs "u") (gs "bkt") (gs "r") (List.replicate 300000 (Char.ofNat 0)) []
             (gs "https://sqs.us-west-2.amazonaws.com/765908583888/MyTestQueue"))]) :=
  SendHeftyMessage_digest_stability ⟨none, none, none⟩
    (fun bs => [ b64Char (bs.length % 52)]) (gs "u") (gs "bkt") (gs "r")
    (List.replicate 300000 (Char.ofNat 0)) []
    (gs "https://sqs.us-west-2.amazonaws.com/765908583888/MyTestQueue") 300000
    (by apply List.ne_nil_of_length_pos; rw [List.length_replicate]; norm_num)
    (by rw [msgSize_no_attrs, List.length_replicate])
    (by norm_num [MaxSqsMessageLengthBytes])
    (by norm_num [MaxHeftyMessageLengthBytes]) (by decide)

/-! ### Claim C8: failure after upload is reported, the blob is leaked -/

/-- C8: when the blob upload succeeds but the subsequent native queue send
fails, `SendHeftyMessage` returns the send failure to the caller
synchronously, the trace is exactly the upload followed by the failed send —
no compensating S3 delete of the uploaded blob ever appears — and,
symmetrically, an upload failure is returned to the caller as well (no send
error is swallowed on any path). -/
theorem SendHeftyMessage_upload_leak
    (md5 : List Nat → GoStr) (uuid bucket region : GoStr)
    (b : GoStr) (attrs : List (GoStr × MessageAttributeValue)) (u : GoStr)
    (size : Nat) (e eU : GoStr) (out0 : SendMessageOutput) (hb : b ≠ [])
    (hsize : msgSize ⟨some b, attrs, some u⟩ = .ok size)
    (h1 : MaxSqsMessageLengthBytes < size)
    (h2 : size ≤ MaxHeftyMessageLengthBytes)
    (h5 : (splitChar '/' u).length = 5) :
    (SendHeftyMessage (fun _ => .error e) (fun _ _ _ => .ok ()) md5 uuid bucket region
        ⟨some b, attrs, some u⟩ =
      (.error e, sqsOffloadParams2 md5 uuid bucket region b attrs u,
        [.upload bucket (sqsOffloadKey u uuid) (sqsOffloadSerialized md5 b attrs),
         .sendNative (sqsOffloadParams2 md5 uuid bucket region b attrs u)])) ∧
    (∀ bk kk, Event.deleteS3 bk kk ∉
      (SendHeftyMessage (fun _ => .error e) (fun _ _ _ => .ok ()) md5 uuid bucket region
        ⟨some b, attrs, some u⟩).2.2) ∧
    SendHeftyMessage (fun _ => .ok out0) (fun _ _ _ => .error eU) md5 uuid bucket region
        ⟨some b, attrs, some u⟩ =
      (.error (gs "unable to upload large message to s3. " ++ eU),
        ⟨some b, attrs, some u⟩,
        [.upload bucket (sqsOffloadKey u uuid) (sqsOffloadSerialized md5 b attrs)]) := by
  have hFail := sendHefty_offload_sendFail (fun _ => .error e) (fun _ _ _ => .ok ())
    md5 uuid bucket region b attrs u size e hb hsize h1 h2 h5 rfl rfl
  refine ⟨hFail, ?_, ?_⟩
  · intro bk kk
    rw [hFail]
    simp
  · exact sendHefty_offload_uploadFail (fun _ => .ok out0) (fun _ _ _ => .error eU)
      md5 uuid bucket region b attrs u size eU hb hsize h1 h2 h5 rfl

/-- Witness for C8 at an offload-sized input (262 145 bytes). -/
theorem SendHeftyMessage_upload_leak_witness :
    (SendHeftyMessage (fun _ => .error (gs "boom")) (fun _ _ _ => .ok ())
        (fun _ => []) (gs "u") (gs "bkt") (gs "r")
        ⟨some (List.replicate 262145 'a'), [],
         some (gs "https://sqs.us-west-2.amazonaws.com/765908583888/MyTestQueue")⟩ =
      (.error (gs "boom"),
        sqsOffloadParams2 (fun _ => []) (gs "u") (gs "bkt") (gs "r")
          (List.replicate 262145 'a') []
          (gs "https://sqs.us-west-2.amazonaws.com/765908583888/MyTestQueue"),
        [.upload (gs "bkt")
           (sqsOffloadKey (gs "https://sqs.us-west-2.amazonaws.com/765908583888/MyTestQueue")
             (gs "u"))
           (sqsOffloadSerialized (fun _ => []) (List.replicate 262145 'a') []),
         .sendNative (sqsOffloadParams2 (fun _ => []) (gs "u") (gs "bkt") (gs "r")
           (List.replicate 262145 'a') []
           (gs "https://sqs.us-west-2.amazonaws.com/765908583888/MyTestQueue"))])) ∧
    (∀ bk kk, Event.deleteS3 bk kk ∉
      (SendHeftyMessage (fun _ => .error (gs "boom")) (fun _ _ _ => .ok ())
        (fun _ => []) (gs "u") (gs "bkt") (gs "r")
        ⟨some (List.replicate 262145 'a'), [],
         some (gs "https://sqs.us-west-2.amazonaws.com/765908583888/MyTestQueue")⟩).2.2) ∧
    SendHeftyMessage (fun _ => .ok ⟨none, none, none⟩) (fun _ _ _ => .error (gs "ubad"))
        (fun _ => []) (gs "u") (gs "bkt") (gs "r")
        ⟨some (List.replicate 262145 'a'), [],
         some (gs "https://sqs.us-west-2.amazonaws.com/765908583888/MyTestQueue")⟩ =
      (.error (gs "unable to upload large message to s3. " ++ gs "ubad"),
        ⟨some (List.replicate 262145 'a'), [],
         some (gs "https://sqs.us-west-2.amazonaws.com/765908583888/MyTestQueue")⟩,
        [.upload (gs "bkt")
           (sqsOffloadKey (gs "https://sqs.us-west-2.amazonaws.com/765908583888/MyTestQueue")
             (gs "u"))
           (sqsOffloadSerialized (fun _ => []) (List.replicate 262145 'a') [])]) :=
  SendHeftyMessage_upload_leak (fun _ => []) (gs "u") (gs "bkt") (gs "r")
    (List.replicate 262145 'a') []
    (gs "https://sqs.us-west-2.amazonaws.com/765908583888/MyTestQueue") 262145
    (gs "boom") (gs "ubad") ⟨none, none, none⟩
    (by apply List.ne_nil_of_length_pos; rw [List.length_replicate]; norm_num)
    (by rw [msgSize_no_attrs, List.length_replicate])
    (by norm_num [MaxSqsMessageLengthBytes])
    (by norm_num [MaxHeftyMessageLengthBytes]) (by decide)

/-! ### Claims C4, C9, C5: the receipt-handle codec and delete flow -/

theorem receiptHandleMarker_no_pipe : '|' ∉ receiptHandleMarker := by decide

theorem receiptHandleMarker_bytes : ∀ x ∈ receiptHandleMarker, x.toNat < 256 := by decide

/-- The pre-encoding wire form of a wrapped receipt handle, written with the
grouping `marker ++ '|' :: (handle ++ '|' :: (bucket ++ '|' :: key))`. -/
theorem wrapPlain_regroup (h c k : GoStr) :
    ( receiptHandleMarker ++ '|' :: h ++ '|' :: c ++ '|' :: k : GoStr) =
      receiptHandleMarker ++ '|' :: (h ++ '|' :: (c ++ '|' :: k)) := by
  simp [List.append_assoc]

theorem splitChar_wrapPlain (h c k : GoStr)
    (hh : '|' ∉ h) (hc : '|' ∉ c) (hk : '|' ∉ k) :
    splitChar '|' ( receiptHandleMarker ++ '|' :: h ++ '|' :: c ++ '|' :: k) =
      [ receiptHandleMarker, h, c, k] := by
  rw [wrapPlain_regroup,
    splitChar_append '|' receiptHandleMarker _ receiptHandleMarker_no_pipe,
    splitChar_append '|' h _ hh, splitChar_append '|' c _ hc,
    splitChar_no_sep '|' k hk]

theorem wrapPlain_bytes (h c k : GoStr)
    (hh : ∀ x ∈ h, x.toNat < 256) (hc : ∀ x ∈ c, x.toNat < 256)
    (hk : ∀ x ∈ k, x.toNat < 256) :
    ∀ x ∈ ( receiptHandleMarker ++ '|' :: h ++ '|' :: c ++ '|' :: k : GoStr),
      x.toNat < 256 := by
  intro x hx
  rw [wrapPlain_regroup] at hx
  simp only [List.mem_append, List.mem_cons] at hx
  rcases hx with hx | rfl | hx | rfl | hx | rfl | hx
  · exact receiptHandleMarker_bytes x hx
  · decide
  · exact hh x hx
  · decide
  · exact hc x hx
  · decide
  · exact hk x hx

theorem wrapPlain_hasMarker (h c k : GoStr) :
    receiptHandleMarker.isPrefixOf
      ( receiptHandleMarker ++ '|' :: h ++ '|' :: c ++ '|' :: k) = true := by
  rw [wrapPlain_regroup, List.isPrefixOf_iff_prefix]
  exact List.prefix_append _ _

/-- Unwrapping a wrapped receipt handle recovers the native handle and the
blob location. -/
theorem unwrapReceiptHandle_wrap (h c k : GoStr)
    (hh1 : '|' ∉ h) (hc1 : '|' ∉ c) (hk1 : '|' ∉ k)
    (hh2 : ∀ x ∈ h, x.toNat < 256) (hc2 : ∀ x ∈ c, x.toNat < 256)
    (hk2 : ∀ x ∈ k, x.toNat < 256) :
    unwrapReceiptHandle (wrapReceiptHandle h c k) = .offloaded h c k := by
  unfold wrapReceiptHandle unwrapReceiptHandle
  rw [b64Decode_b64Encode _ (wrapPlain_bytes h c k hh2 hc2 hk2)]
  dsimp only
  rw [if_neg (fun hn => hn (wrapPlain_hasMarker h c k)),
    splitChar_wrapPlain h c k hh1 hc1 hk1]
  rw [if_neg (by simp [expectedReceiptHandleTokenCount])]
  rfl

/-- C4: for valid native handle, store container and store key (pipe-free
byte strings), unwrapping the handle produced by wrapping yields the
offloaded triple back; the decoded wire form is exactly the 4-token
pipe-delimited string `marker|handle|container|key`, and a decoded handle
that carries the marker but does not split into exactly 4 tokens makes the
unwrap fail with the malformed-receipt-handle error. -/
theorem receiptHandle_roundtrip (h c k : GoStr)
    (hh1 : '|' ∉ h) (hc1 : '|' ∉ c) (hk1 : '|' ∉ k)
    (hh2 : ∀ x ∈ h, x.toNat < 256) (hc2 : ∀ x ∈ c, x.toNat < 256)
    (hk2 : ∀ x ∈ k, x.toNat < 256) :
    unwrapReceiptHandle (wrapReceiptHandle h c k) = .offloaded h c k ∧
    b64Decode (wrapReceiptHandle h c k) =
      some ( receiptHandleMarker ++ '|' :: h ++ '|' :: c ++ '|' :: k) ∧
    splitChar '|' ( receiptHandleMarker ++ '|' :: h ++ '|' :: c ++ '|' :: k) =
      [ receiptHandleMarker, h, c, k] ∧
    (∀ d : GoStr, (∀ x ∈ d, x.toNat < 256) →
      receiptHandleMarker.isPrefixOf d = true →
      (splitChar '|' d).length ≠ expectedReceiptHandleTokenCount →
      unwrapReceiptHandle (b64Encode d) =
        .malformed (gs "expected number of tokens (4) not available in receipt handle")) := by
  refine ⟨unwrapReceiptHandle_wrap h c k hh1 hc1 hk1 hh2 hc2 hk2,
    b64Decode_b64Encode _ (wrapPlain_bytes h c k hh2 hc2 hk2),
    splitChar_wrapPlain h c k hh1 hc1 hk1, ?_⟩
  intro d hd hpre htok
  unfold unwrapReceiptHandle
  rw [b64Decode_b64Encode d hd]
  dsimp only
  rw [if_neg (fun hn => hn hpre), if_pos htok]

/-- Witness for C4 at the spec's Scenario D triple
`("rh1", "bucketX", "key/123")`. -/
theorem receiptHandle_roundtrip_witness :
    unwrapReceiptHandle (wrapReceiptHandle (gs "rh1") (gs "bucketX") (gs "key/123")) =
      .offloaded (gs "rh1") (gs "bucketX") (gs "key/123") :=
  (receiptHandle_roundtrip (gs "rh1") (gs "bucketX") (gs "key/123")
    (by decide) (by decide) (by decide) (by decide) (by decide) (by decide)).1

/-- C9: deleting an offloaded receipt handle unwraps the handle, deletes the
S3 object at the unwrapped bucket and key, and only then deletes the queue
message using the original native handle extracted from the wrapper (the
trace lists the S3 delete strictly before the native delete); if the S3
delete fails, the native queue delete is never attempted and the error is
returned to the caller. -/
theorem DeleteHeftyMessage_order
    (natDel : DeleteMessageInput → Except GoStr Unit) (q : Option GoStr) (e : GoStr)
    (h c k : GoStr)
    (hh1 : '|' ∉ h) (hc1 : '|' ∉ c) (hk1 : '|' ∉ k)
    (hh2 : ∀ x ∈ h, x.toNat < 256) (hc2 : ∀ x ∈ c, x.toNat < 256)
    (hk2 : ∀ x ∈ k, x.toNat < 256) :
    DeleteHeftyMessage (fun _ _ => .error e) natDel ⟨q, some (wrapReceiptHandle h c k)⟩ =
      (.error (gs "could not delete s3 object for large message. " ++ e),
        [.deleteS3 c k]) ∧
    ∀ s3Del : GoStr → GoStr → Except GoStr Unit, s3Del c k = .ok () →
      DeleteHeftyMessage s3Del natDel ⟨q, some (wrapReceiptHandle h c k)⟩ =
        (natDel ⟨q, some h⟩, [.deleteS3 c k, .deleteNative ⟨q, some h⟩]) := by
  constructor
  · simp only [DeleteHeftyMessage]
    rw [unwrapReceiptHandle_wrap h c k hh1 hc1 hk1 hh2 hc2 hk2]
  · intro s3Del hok
    simp only [DeleteHeftyMessage]
    rw [unwrapReceiptHandle_wrap h c k hh1 hc1 hk1 hh2 hc2 hk2]
    dsimp only
    rw [hok]

/-- Witness for C9 at a concrete offloaded handle. -/
theorem DeleteHeftyMessage_order_witness :
    DeleteHeftyMessage (fun _ _ => .error (gs "s3down")) (fun _ => .ok ())
        ⟨some (gs "q"), some (wrapReceiptHandle (gs "rh1") (gs "bucketX") (gs "key/123"))⟩ =
      (.error (gs "could not delete s3 object for large message. " ++ gs "s3down"),
        [.deleteS3 (gs "bucketX") (gs "key/123")]) :=
  (DeleteHeftyMessage_order (fun _ => .ok ()) (some (gs "q")) (gs "s3down")
    (gs "rh1") (gs "bucketX") (gs "key/123")
    (by decide) (by decide) (by decide) (by decide) (by decide) (by decide)).1

/-- The amended C5: when the opaque decode succeeds but the marker is
absent, the delete falls back to the native queue delete with the caller's
handle unchanged; when the opaque decode fails outright, however, the
wrapper returns a decode error and no delete of any kind is attempted. -/
theorem DeleteHeftyMessage_fallback
    (s3Del : GoStr → GoStr → Except GoStr Unit)
    (natDel : DeleteMessageInput → Except GoStr Unit)
    (q : Option GoStr) (rh d : GoStr)
    (hdec : b64Decode rh = some d)
    (hpre : receiptHandleMarker.isPrefixOf d = false) :
    DeleteHeftyMessage s3Del natDel ⟨q, some rh⟩ =
      (natDel ⟨q, some rh⟩, [.deleteNative ⟨q, some rh⟩]) ∧
    ∀ rh2 : GoStr, b64Decode rh2 = none →
      DeleteHeftyMessage s3Del natDel ⟨q, some rh2⟩ =
        (.error (gs "could not decode receipt handle."), []) := by
  constructor
  · simp only [DeleteHeftyMessage, unwrapReceiptHandle]
    rw [hdec]
    dsimp only
    rw [if_pos (by simp [hpre])]
  · intro rh2 h2
    simp only [DeleteHeftyMessage, unwrapReceiptHandle]
    rw [h2]

/-- Witness for the amended C5: a handle whose decode succeeds without the
marker falls back to the native delete. -/
theorem DeleteHeftyMessage_fallback_witness :
    DeleteHeftyMessage (fun _ _ => .ok ()) (fun _ => .ok ())
        ⟨none, some (b64Encode (gs "xyz"))⟩ =
      ((fun (_ : DeleteMessageInput) => (.ok () : Except GoStr Unit))
          ⟨none, some (b64Encode (gs "xyz"))⟩,
        [.deleteNative ⟨none, some (b64Encode (gs "xyz"))⟩]) :=
  (DeleteHeftyMessage_fallback (fun _ _ => .ok ()) (fun _ => .ok ()) none
    (b64Encode (gs "xyz")) (gs "xyz") (by decide) (by decide)).1

/-- Counterexample to C5 as stated: on the receipt handle `"a"`, whose
base64 decode fails outright, `DeleteHeftyMessage` does not fall back to the
native delete with the caller's handle — it performs no delete at all and
returns an error. -/
theorem DeleteHeftyMessage_decode_failure_cex :
    DeleteHeftyMessage (fun _ _ => .ok ()) (fun _ => .ok ()) ⟨none, some (gs "a")⟩ =
      (.error (gs "could not decode receipt handle."), []) ∧
    DeleteHeftyMessage (fun _ _ => .ok ()) (fun _ => .ok ()) ⟨none, some (gs "a")⟩ ≠
      (.ok (), [.deleteNative ⟨none, some (gs "a")⟩]) := by
  exact ⟨rfl, by decide⟩

/-! ### Claim C6: reference-message detection -/

/-- Regrouping of the marshalled reference message around the identifier
header. -/
theorem marshalReferenceMsg_split (m : ReferenceMsg) :
    marshalReferenceMsg m =
      (gs "\x7b\"identifier\":" ++ goJsonQuote m.Identifier ++ gs ",\"s3_region\":") ++
      (goJsonQuote m.S3Region ++ gs ",\"s3_bucket\":" ++ goJsonQuote m.S3Bucket ++
       gs ",\"s3_key\":" ++ goJsonQuote m.S3Key ++ gs ",\"md5_digest_msg_body\":" ++
       goJsonQuote m.Md5DigestMsgBody ++ gs ",\"md5_digest_msg_attr\":" ++
       goJsonQuote m.Md5DigestMsgAttr ++ gs "\x7d") := by
  unfold marshalReferenceMsg
  simp [List.append_assoc]

/-- C6: `IsReferenceMsg` holds exactly of the texts that begin with the
fixed identifier prefix, and every serialized reference message produced
from a built `ReferenceMsg` begins with that prefix, so the reference
messages the client sends through the queue satisfy the detector. -/
theorem IsReferenceMsg_spec :
    (∀ text : GoStr, IsReferenceMsg text = true ↔ jsonReferenceMsgPrefixStr <+: text) ∧
    ∀ region bucket key mdB mdA : GoStr,
      IsReferenceMsg (marshalReferenceMsg (NewReferenceMsg region bucket key mdB mdA)) =
        true := by
  constructor
  · intro text
    exact List.isPrefixOf_iff_prefix
  · intro region bucket key mdB mdA
    rw [IsReferenceMsg, List.isPrefixOf_iff_prefix, marshalReferenceMsg_split]
    have hh : jsonReferenceMsgPrefixStr.isPrefixOf
        (gs "\x7b\"identifier\":" ++ goJsonQuote referenceMsgIdentifierKey ++
          gs ",\"s3_region\":") = true := by decide
    exact List.IsPrefix.trans (List.isPrefixOf_iff_prefix.1 hh) (List.prefix_append _ _)

/-! ### Claim C7: the marker attribute governs offload detection -/

/-- C7: every offloaded send delivers the queue message with exactly the
`hefty-client-version` marker attribute attached, and the receive path
classifies a delivered message as offloaded exactly when that marker is
present among its message attributes: without the marker the message passes
through unchanged with no collaborator call; with the marker the blob is
downloaded, deserialized, and substituted into the message (body,
attributes, digests, wrapped receipt handle). -/
theorem marker_attribute_spec
    (send : SendMessageInput → Except GoStr SendMessageOutput)
    (md5 : List Nat → GoStr) (uuid bucket region : GoStr)
    (b : GoStr) (attrs : List (GoStr × MessageAttributeValue)) (u : GoStr)
    (size : Nat) (hb : b ≠ [])
    (hsize : msgSize ⟨some b, attrs, some u⟩ = .ok size)
    (h1 : MaxSqsMessageLengthBytes < size)
    (h2 : size ≤ MaxHeftyMessageLengthBytes)
    (h5 : (splitChar '/' u).length = 5) :
    (∃ p2 : SendMessageInput,
      (SendHeftyMessage send (fun _ _ _ => .ok ()) md5 uuid bucket region
        ⟨some b, attrs, some u⟩).2.2 =
        [.upload bucket (sqsOffloadKey u uuid) (sqsOffloadSerialized md5 b attrs),
         .sendNative p2] ∧
      p2.MessageAttributes = [(heftyClientVersionMessageKey, heftyMarkerAttributeValue)]) ∧
    (∀ (unmarshalRef : GoStr → Except GoStr referenceMsg)
        (download : GoStr → GoStr → Except GoStr (List Nat)) (msg : SqsMessage),
      findAttr msg.MessageAttributes heftyClientVersionMessageKey = none →
      ReceiveProcessMessage unmarshalRef download msg = .ok (msg, [])) ∧
    (∀ (unmarshalRef : GoStr → Except GoStr referenceMsg)
        (download : GoStr → GoStr → Except GoStr (List Nat)) (msg : SqsMessage)
        (av : MessageAttributeValue) (refM : referenceMsg)
        (bytes : List Nat) (lm : largeSqsMsg),
      findAttr msg.MessageAttributes heftyClientVersionMessageKey = some av →
      unmarshalRef (awsToString msg.Body) = .ok refM →
      download refM.S3Bucket refM.S3Key = .ok bytes →
      deserializeLargeMsg bytes = .ok lm →
      ReceiveProcessMessage unmarshalRef download msg =
        .ok ({ msg with
               Body := lm.Body
               MessageAttributes := lm.MessageAttributes
               MD5OfBody := some refM.SqsMd5HashBody
               MD5OfMessageAttributes := some refM.SqsMd5HashMsgAttr
               ReceiptHandle := some (wrapReceiptHandle (awsToString msg.ReceiptHandle)
                 refM.S3Bucket refM.S3Key) },
          [.download refM.S3Bucket refM.S3Key])) := by
  refine ⟨?_, ?_, ?_⟩
  · cases hsend : send (sqsOffloadParams2 md5 uuid bucket region b attrs u) with
    | error e =>
      rw [sendHefty_offload_sendFail send (fun _ _ _ => .ok ()) md5 uuid bucket region
        b attrs u size e hb hsize h1 h2 h5 rfl hsend]
      exact ⟨sqsOffloadParams2 md5 uuid bucket region b attrs u, rfl, rfl⟩
    | ok out =>
      rw [sendHefty_offload_sendOk send (fun _ _ _ => .ok ()) md5 uuid bucket region
        b attrs u size out hb hsize h1 h2 h5 rfl hsend]
      exact ⟨sqsOffloadParams2 md5 uuid bucket region b attrs u, rfl, rfl⟩
  · intro unmarshalRef download msg hnone
    unfold ReceiveProcessMessage
    rw [hnone]
  · intro unmarshalRef download msg av refM bytes lm hsome hunm hdl hdes
    unfold ReceiveProcessMessage
    rw [hsome, hunm]
    dsimp only
    rw [hdl]
    dsimp only
    rw [hdes]

/-- Witness for C7: a concrete marked message is substituted from the
downloaded blob. -/
theorem marker_attribute_spec_witness :
    ReceiveProcessMessage
        (fun _ => .ok ⟨ gs "r", gs "bk", gs "ky", gs "hb", gs "ha"⟩)
        (fun _ _ => .ok (lenBE4 2 ++ strBytes (gs "hi")))
        ⟨some (gs "refjson"),
         [(heftyClientVersionMessageKey, heftyMarkerAttributeValue)],
         some (gs "rh"), none, none⟩ =
      .ok ({ (⟨some (gs "refjson"),
              [(heftyClientVersionMessageKey, heftyMarkerAttributeValue)],
              some (gs "rh"), none, none⟩ : SqsMessage) with
             Body := (⟨some (gs "hi"), []⟩ : largeSqsMsg).Body
             MessageAttributes := (⟨some (gs "hi"), []⟩ : largeSqsMsg).MessageAttributes
             MD5OfBody := some (gs "hb")
             MD5OfMessageAttributes := some (gs "ha")
             ReceiptHandle := some (wrapReceiptHandle (awsToString (some (gs "rh")))
               (gs "bk") (gs "ky")) },
        [.download (gs "bk") (gs "ky")]) :=
  (marker_attribute_spec (fun _ => .ok ⟨none, none, none⟩) (fun _ => []) (gs "u")
    (gs "bkt") (gs "r") (List.replicate 262145 'a') []
    (gs "https://sqs.us-west-2.amazonaws.com/765908583888/MyTestQueue") 262145
    (by apply List.ne_nil_of_length_pos; rw [List.length_replicate]; norm_num)
    (by rw [msgSize_no_attrs, List.length_replicate])
    (by norm_num [MaxSqsMessageLengthBytes])
    (by norm_num [MaxHeftyMessageLengthBytes]) (by decide)).2.2
    (fun _ => .ok ⟨ gs "r", gs "bk", gs "ky", gs "hb", gs "ha"⟩)
    (fun _ _ => .ok (lenBE4 2 ++ strBytes (gs "hi")))
    ⟨some (gs "refjson"),
     [(heftyClientVersionMessageKey, heftyMarkerAttributeValue)],
     some (gs "rh"), none, none⟩
    heftyMarkerAttributeValue ⟨ gs "r", gs "bk", gs "ky", gs "hb", gs "ha"⟩
    (lenBE4 2 ++ strBytes (gs "hi")) ⟨some (gs "hi"), []⟩
    (by decide) rfl rfl (by decide)

/-! ### Claim C10: mutation of the caller's input structs -/

/-- The S3 key an offloaded SNS publish stores under. -/
def snsOffloadKey (arn uuid : GoStr) : GoStr :=
  (splitChar ':' arn).getD 4 [] ++ '/' :: uuid

theorem newSnsReferenceMessage_ok (arn bucket region bodyHash attrHash uuid : GoStr)
    (h6 : (splitChar ':' arn).length = 6) :
    newSnsReferenceMessage (some arn) bucket region bodyHash attrHash uuid =
      .ok (NewReferenceMsg region bucket ((splitChar ':' arn).getD 4 [] ++ '/' :: uuid)
        bodyHash attrHash) := by
  unfold newSnsReferenceMessage
  dsimp only
  rw [if_neg (by simp [h6])]

/-- After an offloaded publish whose upload succeeded, the deferred restore
leaves the caller's input with the original attributes but with the message
set to the SQS-envelope JSON wrap of the original message. -/
theorem publishHefty_offload_final
    (publish : PublishInput → Except GoStr Unit)
    (upload : GoStr → GoStr → List Nat → Except GoStr Unit)
    (md5 : List Nat → GoStr) (uuid bucket region : GoStr) (alwaysSendToS3 : Bool)
    (m : GoStr) (attrs : List (GoStr × MessageAttributeValue)) (arn : GoStr) (size : Nat)
    (hm : m ≠ [])
    (hsize : messageSize m attrs = .ok size)
    (hbranch : ¬ (¬ alwaysSendToS3 = true ∧ size ≤ MaxAwsMessageLengthBytes))
    (h2 : size ≤ MaxHeftyMessageLengthBytes)
    (h6 : (splitChar ':' arn).length = 6)
    (hup : upload bucket (snsOffloadKey arn uuid)
      (serializeHeftyMsg (marshalSQSMessage m) attrs).1 = .ok ()) :
    (PublishHeftyMessage publish upload md5 uuid bucket region alwaysSendToS3
      ⟨some m, attrs, some arn⟩).2.1 =
      ⟨some (marshalSQSMessage m), attrs, some arn⟩ := by
  unfold snsOffloadKey at hup
  unfold PublishHeftyMessage
  rw [if_neg (by simp [hm])]
  simp only [awsToString_some]
  rw [hsize]
  dsimp only
  rw [if_neg hbranch, if_neg (by omega),
    newSnsReferenceMessage_ok arn bucket region _ _ uuid h6]
  dsimp only
  simp only [NewReferenceMsg]
  rw [hup]

/-- Counterexample to C10 as stated: publishing the 5-byte message
`"hello"` through the forced-offload SNS path leaves the caller's
`params.Message` holding the SQS-envelope JSON `{"Message":"hello"}`, not
the original `"hello"` the claim says is restored. -/
theorem publishHefty_restore_cex :
    (PublishHeftyMessage (fun _ => .ok ()) (fun _ _ _ => .ok ()) (fun _ => []) (gs "u")
        (gs "bkt") (gs "r") true
        ⟨some (gs "hello"), [], some (gs "arn:aws:sns:us-west-2:123456789012:MyTopic")⟩).2.1.Message
      = some (gs "\x7b\"Message\":\"hello\"\x7d") ∧
    some (gs "\x7b\"Message\":\"hello\"\x7d") ≠ some (gs "hello") := by
  exact ⟨rfl, by decide⟩

/-- The amended C10: on the offload path `SendHeftyMessage` mutates the
caller's `SendMessageInput` and does not restore it — after the call the
body holds the reference-message JSON and the attribute map holds only the
`hefty-client-version` marker — while the SNS `PublishHeftyMessage`
restores the caller's attribute map but resets `params.Message` to the
SQS-envelope JSON wrap of the original message rather than to the original
message itself. -/
theorem send_publish_frame_effect
    (md5 : List Nat → GoStr) (uuid bucket region : GoStr)
    (b : GoStr) (attrs : List (GoStr × MessageAttributeValue)) (u : GoStr) (size : Nat)
    (publish : PublishInput → Except GoStr Unit) (alwaysSendToS3 : Bool)
    (m : GoStr) (attrs2 : List (GoStr × MessageAttributeValue)) (arn : GoStr) (size2 : Nat)
    (hb : b ≠ [])
    (hsize : msgSize ⟨some b, attrs, some u⟩ = .ok size)
    (h1 : MaxSqsMessageLengthBytes < size)
    (h2 : size ≤ MaxHeftyMessageLengthBytes)
    (h5 : (splitChar '/' u).length = 5)
    (hm : m ≠ [])
    (hsize2 : messageSize m attrs2 = .ok size2)
    (hbranch : ¬ (¬ alwaysSendToS3 = true ∧ size2 ≤ MaxAwsMessageLengthBytes))
    (h2b : size2 ≤ MaxHeftyMessageLengthBytes)
    (h6 : (splitChar ':' arn).length = 6) :
    (∀ send : SendMessageInput → Except GoStr SendMessageOutput,
      (SendHeftyMessage send (fun _ _ _ => .ok ()) md5 uuid bucket region
        ⟨some b, attrs, some u⟩).2.1 =
        sqsOffloadParams2 md5 uuid bucket region b attrs u) ∧
    (sqsOffloadParams2 md5 uuid bucket region b attrs u).MessageBody =
      some (marshalIndentReferenceMsg (sqsOffloadRefMsg md5 uuid bucket region b attrs u)) ∧
    (sqsOffloadParams2 md5 uuid bucket region b attrs u).MessageAttributes =
      [(heftyClientVersionMessageKey, heftyMarkerAttributeValue)] ∧
    (PublishHeftyMessage publish (fun _ _ _ => .ok ()) md5 uuid bucket region alwaysSendToS3
      ⟨some m, attrs2, some arn⟩).2.1 =
      ⟨some (marshalSQSMessage m), attrs2, some arn⟩ := by
  refine ⟨?_, rfl, rfl, ?_⟩
  · intro send
    cases hsend : send (sqsOffloadParams2 md5 uuid bucket region b attrs u) with
    | error e =>
      rw [sendHefty_offload_sendFail send (fun _ _ _ => .ok ()) md5 uuid bucket region
        b attrs u size e hb hsize h1 h2 h5 rfl hsend]
    | ok out =>
      rw [sendHefty_offload_sendOk send (fun _ _ _ => .ok ()) md5 uuid bucket region
        b attrs u size out hb hsize h1 h2 h5 rfl hsend]
  · exact publishHefty_offload_final publish (fun _ _ _ => .ok ()) md5 uuid bucket region
      alwaysSendToS3 m attrs2 arn size2 hm hsize2 hbranch h2b h6 rfl

/-- Witness for the amended C10 at concrete offload-sized inputs. -/
theorem send_publish_frame_effect_witness :
    (∀ send : SendMessageInput → Except GoStr SendMessageOutput,
      (SendHeftyMessage send (fun _ _ _ => .ok ()) (fun _ => []) (gs "u") (gs "bkt") (gs "r")
        ⟨some (List.replicate 262145 'a'), [],
         some (gs "https://sqs.us-west-2.amazonaws.com/765908583888/MyTestQueue")⟩).2.1 =
        sqsOffloadParams2 (fun _ => []) (gs "u") (gs "bkt") (gs "r")
          (List.replicate 262145 'a') []
          (gs "https://sqs.us-west-2.amazonaws.com/765908583888/MyTestQueue")) ∧
    (sqsOffloadParams2 (fun _ => []) (gs "u") (gs "bkt") (gs "r")
      (List.replicate 262145 'a') []
      (gs "https://sqs.us-west-2.amazonaws.com/765908583888/MyTestQueue")).MessageBody =
      some (marshalIndentReferenceMsg (sqsOffloadRefMsg (fun _ => []) (gs "u") (gs "bkt")
        (gs "r") (List.replicate 262145 'a') []
        (gs "https://sqs.us-west-2.amazonaws.com/765908583888/MyTestQueue"))) ∧
    (sqsOffloadParams2 (fun _ => []) (gs "u") (gs "bkt") (gs "r")
      (List.replicate 262145 'a') []
      (gs "https://sqs.us-west-2.amazonaws.com/765908583888/MyTestQueue")).MessageAttributes =
      [(heftyClientVersionMessageKey, heftyMarkerAttributeValue)] ∧
    (PublishHeftyMessage (fun _ => .ok ()) (fun _ _ _ => .ok ()) (fun _ => []) (gs "u")
      (gs "bkt") (gs "r") true
      ⟨some (gs "hello"), [], some (gs "arn:aws:sns:us-west-2:123456789012:MyTopic")⟩).2.1 =
      ⟨some (marshalSQSMessage (gs "hello")), [],
       some (gs "arn:aws:sns:us-west-2:123456789012:MyTopic")⟩ :=
  send_publish_frame_effect (fun _ => []) (gs "u") (gs "bkt") (gs "r")
    (List.replicate 262145 'a') []
    (gs "https://sqs.us-west-2.amazonaws.com/765908583888/MyTestQueue") 262145
    (fun _ => .ok ()) true (gs "hello") []
    (gs "arn:aws:sns:us-west-2:123456789012:MyTopic") 5
    (by apply List.ne_nil_of_length_pos; rw [List.length_replicate]; norm_num)
    (by rw [msgSize_no_attrs, List.length_replicate])
    (by norm_num [MaxSqsMessageLengthBytes])
    (by norm_num [MaxHeftyMessageLengthBytes]) (by decide)
    (by decide) (by decide) (by decide)
    (by norm_num [MaxHeftyMessageLengthBytes]) (by decide)
